import Mathlib

/-!
Verification development for the Ishiiruka shader-generation core:
the texture-format encoding shader generator
(Source/Core/VideoCommon/TextureConversionShaderGL.cpp) and the DX11
post-processing engine (Source/Core/VideoBackends/DX11/PostProcessing.cpp).

The C++ code is embedded shallowly: the sprintf-based text generator becomes
pure Lean functions building `String`s, the mutable global
`IntensityConstantAdded` flag becomes explicit state threading, machine
integers become `Nat`/`Int` with explicit `% 2^w` where wraparound matters,
and single-precision floats become `ℚ` (the claims checked here depend only
on exact arithmetic identities, not on rounding).

Literal braces inside embedded shader text are written with the escapes
\x7b and \x7d; they denote the ordinary characters U+007B and U+007D.
-/

/-! ## Texture format codes

Modelled from the spec: the console-native pixel/depth format enumeration
(`GX_TF_*` / `GX_CTF_*`) lives in VideoCommon/TextureDecoder.h, which is not
part of the two source files; the numeric values below are the console
texture-format codes referenced by the switch in `GenerateEncodingShader`
(copy-format flag 0x20, Z-format flag 0x10). -/

def GX_TF_I4 : Nat := 0x0
def GX_TF_I8 : Nat := 0x1
def GX_TF_IA4 : Nat := 0x2
def GX_TF_IA8 : Nat := 0x3
def GX_TF_RGB565 : Nat := 0x4
def GX_TF_RGB5A3 : Nat := 0x5
def GX_TF_RGBA8 : Nat := 0x6
def GX_TF_Z8 : Nat := 0x11
def GX_TF_Z16 : Nat := 0x13
def GX_TF_Z24X8 : Nat := 0x16
def GX_CTF_R4 : Nat := 0x20
def GX_CTF_RA4 : Nat := 0x22
def GX_CTF_RA8 : Nat := 0x23
def GX_CTF_A8 : Nat := 0x27
def GX_CTF_R8 : Nat := 0x28
def GX_CTF_G8 : Nat := 0x29
def GX_CTF_B8 : Nat := 0x2A
def GX_CTF_RG8 : Nat := 0x2B
def GX_CTF_GB8 : Nat := 0x2C
def GX_CTF_Z4 : Nat := 0x30
def GX_CTF_Z8M : Nat := 0x39
def GX_CTF_Z8L : Nat := 0x3A
def GX_CTF_Z16L : Nat := 0x3C

/-- The closed enumeration of format identifiers handled by the `switch` in
`GenerateEncodingShader` (TextureConversionShaderGL.cpp, lines 543-617), in
source order. -/
def supportedFormatCodes : List Nat :=
  [GX_TF_I4, GX_TF_I8, GX_TF_IA4, GX_TF_IA8, GX_TF_RGB565, GX_TF_RGB5A3,
   GX_TF_RGBA8, GX_CTF_R4, GX_CTF_RA4, GX_CTF_RA8, GX_CTF_A8, GX_CTF_R8,
   GX_CTF_G8, GX_CTF_B8, GX_CTF_RG8, GX_CTF_GB8, GX_TF_Z8, GX_TF_Z16,
   GX_TF_Z24X8, GX_CTF_Z4, GX_CTF_Z8M, GX_CTF_Z8L, GX_CTF_Z16L]

/-- Modelled from the spec: `TexDecoder_GetBlockWidthInTexels`
(VideoCommon/TextureDecoder.cpp, outside the two source files) — the
power-of-two block width of each console format ("block dimensions are
always powers of two", spec section 4.1).  Only the formats that
`WriteSwizzler` is actually called with need values; the `default` of the
original returns 8. -/
def TexDecoder_GetBlockWidthInTexels (format : Nat) : Nat :=
  if format = GX_TF_I4 then 8
  else if format = GX_TF_I8 then 8
  else if format = GX_TF_IA4 then 8
  else if format = GX_TF_IA8 then 4
  else if format = GX_TF_RGB565 then 4
  else if format = GX_TF_RGB5A3 then 4
  else if format = GX_TF_RGBA8 then 4
  else if format = GX_CTF_R4 then 8
  else if format = GX_CTF_RA4 then 8
  else if format = GX_CTF_RA8 then 4
  else if format = GX_CTF_R8 then 8
  else if format = GX_TF_Z8 then 8
  else if format = GX_TF_Z16 then 4
  else if format = GX_TF_Z24X8 then 4
  else if format = GX_CTF_Z8M then 8
  else if format = GX_CTF_Z16L then 4
  else 8

/-- Modelled from the spec: `TexDecoder_GetBlockHeightInTexels`
(VideoCommon/TextureDecoder.cpp, outside the two source files). -/
def TexDecoder_GetBlockHeightInTexels (format : Nat) : Nat :=
  if format = GX_TF_I4 then 8
  else if format = GX_TF_I8 then 4
  else if format = GX_TF_IA4 then 4
  else if format = GX_TF_IA8 then 4
  else if format = GX_TF_RGB565 then 4
  else if format = GX_TF_RGB5A3 then 4
  else if format = GX_TF_RGBA8 then 4
  else if format = GX_CTF_R4 then 8
  else if format = GX_CTF_RA4 then 4
  else if format = GX_CTF_RA8 then 4
  else if format = GX_CTF_R8 then 4
  else if format = GX_TF_Z8 then 4
  else if format = GX_TF_Z16 then 4
  else if format = GX_TF_Z24X8 then 4
  else if format = GX_CTF_Z8M then 4
  else if format = GX_CTF_Z16L then 4
  else 4

/-- Modelled from the spec: `TextureConversionShader::GetEncodedSampleCount`
(VideoCommon/TextureConversionShader.cpp, outside the two source files) —
"the per-format sample count — 1 for 32-bit formats needing two passes
across two cache-line halves, higher for sub-byte formats packing several
source samples per destination texel" (spec section 4.1). -/
def GetEncodedSampleCount (format : Nat) : Nat :=
  if format = GX_TF_I4 then 8
  else if format = GX_TF_I8 then 4
  else if format = GX_TF_IA4 then 4
  else if format = GX_TF_IA8 then 2
  else if format = GX_TF_RGB565 then 2
  else if format = GX_TF_RGB5A3 then 2
  else if format = GX_TF_RGBA8 then 1
  else if format = GX_CTF_R4 then 8
  else if format = GX_CTF_RA4 then 4
  else if format = GX_CTF_RA8 then 2
  else if format = GX_CTF_R8 then 4
  else if format = GX_TF_Z8 then 4
  else if format = GX_TF_Z16 then 2
  else if format = GX_TF_Z24X8 then 1
  else if format = GX_CTF_Z8M then 4
  else if format = GX_CTF_Z16L then 2
  else 1

/-- Floor base-2 logarithm, by structural recursion on a fuel argument so
that it reduces inside the kernel. -/
def intLog2Fuel : Nat → Nat → Nat
  | 0, _ => 0
  | fuel + 1, n => if 2 ≤ n then intLog2Fuel fuel (n / 2) + 1 else 0

/-- Modelled from the spec: `IntLog2` (Common/MathUtil.h, outside the two
source files) — floor base-2 logarithm of a power of two. -/
def IntLog2 (n : Nat) : Nat := intLog2Fuel n n

/-- `EFB_WIDTH` from VideoCommon/VideoCommon.h (outside the two source
files): width of the embedded frame buffer. -/
def EFB_WIDTH : Nat := 640

/-- `EFB_HEIGHT` from VideoCommon/VideoCommon.h (outside the two source
files): height of the embedded frame buffer. -/
def EFB_HEIGHT : Nat := 528

/-- C bitwise complement on `int`: two's complement `~x = -x - 1`. -/
def cNot (x : Int) : Int := -x - 1

/-- Render an `Int` the way the C `%d` conversion does. -/
def dFmt (n : Int) : String := toString n

/-- Render a `Nat` the way the C `%d` conversion does (non-negative case). -/
def uFmt (n : Nat) : String := toString n

/-! ## The encoding-shader generator

State of the generator: the text accumulated in the static `char text[16384]`
scratch buffer (represented by the string of bytes emitted so far — each
`WRITE`/`sprintf` appends at the write pointer `p` and leaves a NUL
terminator one past the last emitted byte), and the file-scope mutable flag
`IntensityConstantAdded`. -/

structure EncState where
  out : String
  IntensityConstantAdded : Bool

/-- One `WRITE(p, ...)` with all conversions already substituted. -/
def emit (st : EncState) (s : String) : EncState :=
  { st with out := st.out ++ s }

/-- `WriteSwizzler` (TextureConversionShaderGL.cpp lines 28-72). -/
def WriteSwizzler (st : EncState) (format : Nat) : EncState :=
  let blkW : Nat := TexDecoder_GetBlockWidthInTexels format
  let blkH : Nat := TexDecoder_GetBlockHeightInTexels format
  let samples : Nat := GetEncodedSampleCount format
  let st := emit st "uniform int4 position;\n"
  let st := emit st "#define samp0 samp9\n"
  let st := emit st "SAMPLER_BINDING(9) uniform sampler2D samp0;\n"
  let st := emit st "  out vec4 ocol0;\n"
  let st := emit st "void main()\n"
  let st := emit st "\x7b\n  int2 sampleUv;\n  int2 uv1 = int2(gl_FragCoord.xy);\n"
  let st := emit st ("  int y_block_position = uv1.y & " ++ dFmt (cNot (blkH - 1)) ++ ";\n")
  let st := emit st ("  int y_offset_in_block = uv1.y & " ++ uFmt (blkH - 1) ++ ";\n")
  let st := emit st ("  int x_virtual_position = (uv1.x << " ++ uFmt (IntLog2 samples) ++
    ") + y_offset_in_block * position.z;\n")
  let st := emit st ("  int x_block_position = (x_virtual_position >> " ++ uFmt (IntLog2 blkH) ++
    ") & " ++ dFmt (cNot (blkW - 1)) ++ ";\n")
  let st :=
    if samples = 1 then
      -- 32 bit textures (RGBA8 and Z24) are stored in 2 cache line increments
      let st := emit st ("  bool first = 0 == (x_virtual_position & " ++
        uFmt (8 * samples) ++ ");\n")
      emit st "  x_virtual_position = x_virtual_position << 1;\n"
    else st
  let st := emit st ("  int x_offset_in_block = x_virtual_position & " ++ uFmt (blkW - 1) ++ ";\n")
  let st := emit st ("  int y_offset = (x_virtual_position >> " ++ uFmt (IntLog2 blkW) ++
    ") & " ++ uFmt (blkH - 1) ++ ";\n")
  let st := emit st "  sampleUv.x = x_offset_in_block + x_block_position;\n"
  let st := emit st "  sampleUv.y = y_block_position + y_offset;\n"
  let st := emit st "  float2 uv0 = float2(sampleUv);\n"
  let st := emit st "  uv0 += float2(0.5, 0.5);\n"
  let st := emit st "  uv0 *= float(position.w);\n"
  let st := emit st "  uv0 += float2(position.xy);\n"
  let st := emit st ("  uv0 /= float2(" ++ uFmt EFB_WIDTH ++ ", " ++ uFmt EFB_HEIGHT ++ ");\n")
  let st := emit st "  uv0.y = 1.0-uv0.y;\n"
  emit st ("  float sample_offset = float(position.w) / float(" ++ uFmt EFB_WIDTH ++ ");\n")

/-- `WriteSampleColor` (lines 74-79). -/
def WriteSampleColor (st : EncState) (colorComp dest : String) (xoffset : Int) : EncState :=
  emit st ("  " ++ dest ++ " = texture(samp0, uv0 + float2(" ++ dFmt xoffset ++
    ", 0) * sample_offset)." ++ colorComp ++ ";\n")

/-- `WriteColorToIntensity` (lines 81-90): emits the luminance constant
declaration once per generation, guarded by the mutable flag. -/
def WriteColorToIntensity (st : EncState) (src dest : String) : EncState :=
  let st :=
    if !st.IntensityConstantAdded then
      let st := emit st "  float4 IntensityConst = float4(0.257f,0.504f,0.098f,0.0625f);\n"
      { st with IntensityConstantAdded := true }
    else st
  emit st ("  " ++ dest ++ " = dot(IntensityConst.rgb, " ++ src ++ ".rgb);\n")

/-- `WriteToBitDepth` (lines 92-95). -/
def WriteToBitDepth (st : EncState) (depth : Nat) (src dest : String) : EncState :=
  emit st ("  " ++ dest ++ " = floor(" ++ src ++ " * 255.0 / exp2(8.0 - " ++
    uFmt depth ++ ".0));\n")

/-- `WriteEncoderEnd` (lines 97-101): closes the shader body and clears the
`IntensityConstantAdded` flag. -/
def WriteEncoderEnd (st : EncState) : EncState :=
  let st := emit st "\x7d\n"
  { st with IntensityConstantAdded := false }

/-- `WriteI8Encoder` (lines 103-123). -/
def WriteI8Encoder (st : EncState) : EncState :=
  let st := WriteSwizzler st GX_TF_I8
  let st := emit st "  float3 texSample;\n"
  let st := WriteSampleColor st "rgb" "texSample" 0
  let st := WriteColorToIntensity st "texSample" "ocol0.b"
  let st := WriteSampleColor st "rgb" "texSample" 1
  let st := WriteColorToIntensity st "texSample" "ocol0.g"
  let st := WriteSampleColor st "rgb" "texSample" 2
  let st := WriteColorToIntensity st "texSample" "ocol0.r"
  let st := WriteSampleColor st "rgb" "texSample" 3
  let st := WriteColorToIntensity st "texSample" "ocol0.a"
  let st := emit st "  ocol0.rgba += IntensityConst.aaaa;\n"
  WriteEncoderEnd st

/-- `WriteI4Encoder` (lines 125-164). -/
def WriteI4Encoder (st : EncState) : EncState :=
  let st := WriteSwizzler st GX_TF_I4
  let st := emit st "  float3 texSample;\n"
  let st := emit st "  float4 color0;\n"
  let st := emit st "  float4 color1;\n"
  let st := WriteSampleColor st "rgb" "texSample" 0
  let st := WriteColorToIntensity st "texSample" "color0.b"
  let st := WriteSampleColor st "rgb" "texSample" 1
  let st := WriteColorToIntensity st "texSample" "color1.b"
  let st := WriteSampleColor st "rgb" "texSample" 2
  let st := WriteColorToIntensity st "texSample" "color0.g"
  let st := WriteSampleColor st "rgb" "texSample" 3
  let st := WriteColorToIntensity st "texSample" "color1.g"
  let st := WriteSampleColor st "rgb" "texSample" 4
  let st := WriteColorToIntensity st "texSample" "color0.r"
  let st := WriteSampleColor st "rgb" "texSample" 5
  let st := WriteColorToIntensity st "texSample" "color1.r"
  let st := WriteSampleColor st "rgb" "texSample" 6
  let st := WriteColorToIntensity st "texSample" "color0.a"
  let st := WriteSampleColor st "rgb" "texSample" 7
  let st := WriteColorToIntensity st "texSample" "color1.a"
  let st := emit st "  color0.rgba += IntensityConst.aaaa;\n"
  let st := emit st "  color1.rgba += IntensityConst.aaaa;\n"
  let st := WriteToBitDepth st 4 "color0" "color0"
  let st := WriteToBitDepth st 4 "color1" "color1"
  let st := emit st "  ocol0 = (color0 * 16.0 + color1) / 255.0;\n"
  WriteEncoderEnd st

/-- `WriteIA8Encoder` (lines 166-182). -/
def WriteIA8Encoder (st : EncState) : EncState :=
  let st := WriteSwizzler st GX_TF_IA8
  let st := emit st "  float4 texSample;\n"
  let st := WriteSampleColor st "rgba" "texSample" 0
  let st := emit st "  ocol0.b = texSample.a;\n"
  let st := WriteColorToIntensity st "texSample" "ocol0.g"
  let st := WriteSampleColor st "rgba" "texSample" 1
  let st := emit st "  ocol0.r = texSample.a;\n"
  let st := WriteColorToIntensity st "texSample" "ocol0.a"
  let st := emit st "  ocol0.ga += IntensityConst.aa;\n"
  WriteEncoderEnd st

/-- `WriteIA4Encoder` (lines 184-214). -/
def WriteIA4Encoder (st : EncState) : EncState :=
  let st := WriteSwizzler st GX_TF_IA4
  let st := emit st "  float4 texSample;\n"
  let st := emit st "  float4 color0;\n"
  let st := emit st "  float4 color1;\n"
  let st := WriteSampleColor st "rgba" "texSample" 0
  let st := emit st "  color0.b = texSample.a;\n"
  let st := WriteColorToIntensity st "texSample" "color1.b"
  let st := WriteSampleColor st "rgba" "texSample" 1
  let st := emit st "  color0.g = texSample.a;\n"
  let st := WriteColorToIntensity st "texSample" "color1.g"
  let st := WriteSampleColor st "rgba" "texSample" 2
  let st := emit st "  color0.r = texSample.a;\n"
  let st := WriteColorToIntensity st "texSample" "color1.r"
  let st := WriteSampleColor st "rgba" "texSample" 3
  let st := emit st "  color0.a = texSample.a;\n"
  let st := WriteColorToIntensity st "texSample" "color1.a"
  let st := emit st "  color1.rgba += IntensityConst.aaaa;\n"
  let st := WriteToBitDepth st 4 "color0" "color0"
  let st := WriteToBitDepth st 4 "color1" "color1"
  let st := emit st "  ocol0 = (color0 * 16.0 + color1) / 255.0;\n"
  WriteEncoderEnd st

/-- `WriteRGB565Encoder` (lines 216-237). -/
def WriteRGB565Encoder (st : EncState) : EncState :=
  let st := WriteSwizzler st GX_TF_RGB565
  let st := WriteSampleColor st "rgb" "float3 texSample0" 0
  let st := WriteSampleColor st "rgb" "float3 texSample1" 1
  let st := emit st "  float2 texRs = float2(texSample0.r, texSample1.r);\n"
  let st := emit st "  float2 texGs = float2(texSample0.g, texSample1.g);\n"
  let st := emit st "  float2 texBs = float2(texSample0.b, texSample1.b);\n"
  let st := WriteToBitDepth st 6 "texGs" "float2 gInt"
  let st := emit st "  float2 gUpper = floor(gInt / 8.0);\n"
  let st := emit st "  float2 gLower = gInt - gUpper * 8.0;\n"
  let st := WriteToBitDepth st 5 "texRs" "ocol0.br"
  let st := emit st "  ocol0.br = ocol0.br * 8.0 + gUpper;\n"
  let st := WriteToBitDepth st 5 "texBs" "ocol0.ga"
  let st := emit st "  ocol0.ga = ocol0.ga + gLower * 32.0;\n"
  let st := emit st "  ocol0 = ocol0 / 255.0;\n"
  WriteEncoderEnd st

/-- `WriteRGB5A3Encoder` (lines 239-303). -/
def WriteRGB5A3Encoder (st : EncState) : EncState :=
  let st := WriteSwizzler st GX_TF_RGB5A3
  let st := emit st "  float4 texSample;\n"
  let st := emit st "  float color0;\n"
  let st := emit st "  float gUpper;\n"
  let st := emit st "  float gLower;\n"
  let st := WriteSampleColor st "rgba" "texSample" 0
  let st := emit st "if(texSample.a > 0.878f) \x7b\n"
  let st := WriteToBitDepth st 5 "texSample.g" "color0"
  let st := emit st "  gUpper = floor(color0 / 8.0);\n"
  let st := emit st "  gLower = color0 - gUpper * 8.0;\n"
  let st := WriteToBitDepth st 5 "texSample.r" "ocol0.b"
  let st := emit st "  ocol0.b = ocol0.b * 4.0 + gUpper + 128.0;\n"
  let st := WriteToBitDepth st 5 "texSample.b" "ocol0.g"
  let st := emit st "  ocol0.g = ocol0.g + gLower * 32.0;\n"
  let st := emit st "\x7d else \x7b\n"
  let st := WriteToBitDepth st 4 "texSample.r" "ocol0.b"
  let st := WriteToBitDepth st 4 "texSample.b" "ocol0.g"
  let st := WriteToBitDepth st 3 "texSample.a" "color0"
  let st := emit st "ocol0.b = ocol0.b + color0 * 16.0;\n"
  let st := WriteToBitDepth st 4 "texSample.g" "color0"
  let st := emit st "ocol0.g = ocol0.g + color0 * 16.0;\n"
  let st := emit st "\x7d\n"
  let st := WriteSampleColor st "rgba" "texSample" 1
  let st := emit st "if(texSample.a > 0.878f) \x7b\n"
  let st := WriteToBitDepth st 5 "texSample.g" "color0"
  let st := emit st "  gUpper = floor(color0 / 8.0);\n"
  let st := emit st "  gLower = color0 - gUpper * 8.0;\n"
  let st := WriteToBitDepth st 5 "texSample.r" "ocol0.r"
  let st := emit st "  ocol0.r = ocol0.r * 4.0 + gUpper + 128.0;\n"
  let st := WriteToBitDepth st 5 "texSample.b" "ocol0.a"
  let st := emit st "  ocol0.a = ocol0.a + gLower * 32.0;\n"
  let st := emit st "\x7d else \x7b\n"
  let st := WriteToBitDepth st 4 "texSample.r" "ocol0.r"
  let st := WriteToBitDepth st 4 "texSample.b" "ocol0.a"
  let st := WriteToBitDepth st 3 "texSample.a" "color0"
  let st := emit st "ocol0.r = ocol0.r + color0 * 16.0;\n"
  let st := WriteToBitDepth st 4 "texSample.g" "color0"
  let st := emit st "ocol0.a = ocol0.a + color0 * 16.0;\n"
  let st := emit st "\x7d\n"
  let st := emit st "  ocol0 = ocol0 / 255.0;\n"
  WriteEncoderEnd st

/-- `WriteRGBA8Encoder` (lines 305-328). -/
def WriteRGBA8Encoder (st : EncState) : EncState :=
  let st := WriteSwizzler st GX_TF_RGBA8
  let st := emit st "  float4 texSample;\n"
  let st := emit st "  float4 color0;\n"
  let st := emit st "  float4 color1;\n"
  let st := WriteSampleColor st "rgba" "texSample" 0
  let st := emit st "  color0.b = texSample.a;\n"
  let st := emit st "  color0.g = texSample.r;\n"
  let st := emit st "  color1.b = texSample.g;\n"
  let st := emit st "  color1.g = texSample.b;\n"
  let st := WriteSampleColor st "rgba" "texSample" 1
  let st := emit st "  color0.r = texSample.a;\n"
  let st := emit st "  color0.a = texSample.r;\n"
  let st := emit st "  color1.r = texSample.g;\n"
  let st := emit st "  color1.a = texSample.b;\n"
  let st := emit st "  ocol0 = first ? color0 : color1;\n"
  WriteEncoderEnd st

/-- `WriteC4Encoder` (lines 330-350); the swizzler format is hard-coded to
`GX_CTF_R4` in the source. -/
def WriteC4Encoder (st : EncState) (comp : String) : EncState :=
  let st := WriteSwizzler st GX_CTF_R4
  let st := emit st "  float4 color0;\n"
  let st := emit st "  float4 color1;\n"
  let st := WriteSampleColor st comp "color0.b" 0
  let st := WriteSampleColor st comp "color1.b" 1
  let st := WriteSampleColor st comp "color0.g" 2
  let st := WriteSampleColor st comp "color1.g" 3
  let st := WriteSampleColor st comp "color0.r" 4
  let st := WriteSampleColor st comp "color1.r" 5
  let st := WriteSampleColor st comp "color0.a" 6
  let st := WriteSampleColor st comp "color1.a" 7
  let st := WriteToBitDepth st 4 "color0" "color0"
  let st := WriteToBitDepth st 4 "color1" "color1"
  let st := emit st "  ocol0 = (color0 * 16.0 + color1) / 255.0;\n"
  WriteEncoderEnd st

/-- `WriteC8Encoder` (lines 352-362); swizzler format hard-coded to
`GX_CTF_R8`. -/
def WriteC8Encoder (st : EncState) (comp : String) : EncState :=
  let st := WriteSwizzler st GX_CTF_R8
  let st := WriteSampleColor st comp "ocol0.b" 0
  let st := WriteSampleColor st comp "ocol0.g" 1
  let st := WriteSampleColor st comp "ocol0.r" 2
  let st := WriteSampleColor st comp "ocol0.a" 3
  WriteEncoderEnd st

/-- `WriteCC4Encoder` (lines 364-392); swizzler format hard-coded to
`GX_CTF_RA4`. -/
def WriteCC4Encoder (st : EncState) (comp : String) : EncState :=
  let st := WriteSwizzler st GX_CTF_RA4
  let st := emit st "  float2 texSample;\n"
  let st := emit st "  float4 color0;\n"
  let st := emit st "  float4 color1;\n"
  let st := WriteSampleColor st comp "texSample" 0
  let st := emit st "  color0.b = texSample.x;\n"
  let st := emit st "  color1.b = texSample.y;\n"
  let st := WriteSampleColor st comp "texSample" 1
  let st := emit st "  color0.g = texSample.x;\n"
  let st := emit st "  color1.g = texSample.y;\n"
  let st := WriteSampleColor st comp "texSample" 2
  let st := emit st "  color0.r = texSample.x;\n"
  let st := emit st "  color1.r = texSample.y;\n"
  let st := WriteSampleColor st comp "texSample" 3
  let st := emit st "  color0.a = texSample.x;\n"
  let st := emit st "  color1.a = texSample.y;\n"
  let st := WriteToBitDepth st 4 "color0" "color0"
  let st := WriteToBitDepth st 4 "color1" "color1"
  let st := emit st "  ocol0 = (color0 * 16.0 + color1) / 255.0;\n"
  WriteEncoderEnd st

/-- `WriteCC8Encoder` (lines 394-402); swizzler format hard-coded to
`GX_CTF_RA8`. -/
def WriteCC8Encoder (st : EncState) (comp : String) : EncState :=
  let st := WriteSwizzler st GX_CTF_RA8
  let st := WriteSampleColor st comp "ocol0.bg" 0
  let st := WriteSampleColor st comp "ocol0.ra" 1
  WriteEncoderEnd st

/-- `WriteZ8Encoder` (lines 404-423); swizzler format hard-coded to
`GX_CTF_Z8M`. -/
def WriteZ8Encoder (st : EncState) (multiplier : String) : EncState :=
  let st := WriteSwizzler st GX_CTF_Z8M
  let st := emit st " float depth;\n"
  let st := WriteSampleColor st "b" "depth" 0
  let st := emit st ("ocol0.b = frac(depth * " ++ multiplier ++ ");\n")
  let st := WriteSampleColor st "b" "depth" 1
  let st := emit st ("ocol0.g = frac(depth * " ++ multiplier ++ ");\n")
  let st := WriteSampleColor st "b" "depth" 2
  let st := emit st ("ocol0.r = frac(depth * " ++ multiplier ++ ");\n")
  let st := WriteSampleColor st "b" "depth" 3
  let st := emit st ("ocol0.a = frac(depth * " ++ multiplier ++ ");\n")
  WriteEncoderEnd st

/-- `WriteZ16Encoder` (lines 425-455). -/
def WriteZ16Encoder (st : EncState) : EncState :=
  let st := WriteSwizzler st GX_TF_Z16
  let st := emit st "  float depth;\n"
  let st := emit st "  float3 expanded;\n"
  -- byte order is reversed
  let st := WriteSampleColor st "b" "depth" 0
  let st := emit st "  depth *= 16777215.0;\n"
  let st := emit st "  expanded.r = floor(depth / (256.0 * 256.0));\n"
  let st := emit st "  depth -= expanded.r * 256.0 * 256.0;\n"
  let st := emit st "  expanded.g = floor(depth / 256.0);\n"
  let st := emit st "  ocol0.b = expanded.g / 255.0;\n"
  let st := emit st "  ocol0.g = expanded.r / 255.0;\n"
  let st := WriteSampleColor st "b" "depth" 1
  let st := emit st "  depth *= 16777215.0;\n"
  let st := emit st "  expanded.r = floor(depth / (256.0 * 256.0));\n"
  let st := emit st "  depth -= expanded.r * 256.0 * 256.0;\n"
  let st := emit st "  expanded.g = floor(depth / 256.0);\n"
  let st := emit st "  ocol0.r = expanded.g / 255.0;\n"
  let st := emit st "  ocol0.a = expanded.r / 255.0;\n"
  WriteEncoderEnd st

/-- `WriteZ16LEncoder` (lines 457-491). -/
def WriteZ16LEncoder (st : EncState) : EncState :=
  let st := WriteSwizzler st GX_CTF_Z16L
  let st := emit st "  float depth;\n"
  let st := emit st "  float3 expanded;\n"
  -- byte order is reversed
  let st := WriteSampleColor st "b" "depth" 0
  let st := emit st "  depth *= 16777215.0;\n"
  let st := emit st "  expanded.r = floor(depth / (256.0 * 256.0));\n"
  let st := emit st "  depth -= expanded.r * 256.0 * 256.0;\n"
  let st := emit st "  expanded.g = floor(depth / 256.0);\n"
  let st := emit st "  depth -= expanded.g * 256.0;\n"
  let st := emit st "  expanded.b = depth;\n"
  let st := emit st "  ocol0.b = expanded.b / 255.0;\n"
  let st := emit st "  ocol0.g = expanded.g / 255.0;\n"
  let st := WriteSampleColor st "b" "depth" 1
  let st := emit st "  depth *= 16777215.0;\n"
  let st := emit st "  expanded.r = floor(depth / (256.0 * 256.0));\n"
  let st := emit st "  depth -= expanded.r * 256.0 * 256.0;\n"
  let st := emit st "  expanded.g = floor(depth / 256.0);\n"
  let st := emit st "  depth -= expanded.g * 256.0;\n"
  let st := emit st "  expanded.b = depth;\n"
  let st := emit st "  ocol0.r = expanded.b / 255.0;\n"
  let st := emit st "  ocol0.a = expanded.g / 255.0;\n"
  WriteEncoderEnd st

/-- One iteration of the expansion loop inside `WriteZ24Encoder`
(lines 505-514), with `%i` substituted by the loop index. -/
def WriteZ24Expand (st : EncState) (i : Nat) : EncState :=
  let st := emit st ("  depth" ++ uFmt i ++ " *= 16777215.0;\n")
  let st := emit st ("  expanded" ++ uFmt i ++ ".r = floor(depth" ++ uFmt i ++
    " / (256.0 * 256.0));\n")
  let st := emit st ("  depth" ++ uFmt i ++ " -= expanded" ++ uFmt i ++
    ".r * 256.0 * 256.0;\n")
  let st := emit st ("  expanded" ++ uFmt i ++ ".g = floor(depth" ++ uFmt i ++ " / 256.0);\n")
  let st := emit st ("  depth" ++ uFmt i ++ " -= expanded" ++ uFmt i ++ ".g * 256.0;\n")
  emit st ("  expanded" ++ uFmt i ++ ".b = depth" ++ uFmt i ++ ";\n")

/-- `WriteZ24Encoder` (lines 493-531). -/
def WriteZ24Encoder (st : EncState) : EncState :=
  let st := WriteSwizzler st GX_TF_Z24X8
  let st := emit st "  float depth0;\n"
  let st := emit st "  float depth1;\n"
  let st := emit st "  float3 expanded0;\n"
  let st := emit st "  float3 expanded1;\n"
  let st := WriteSampleColor st "b" "depth0" 0
  let st := WriteSampleColor st "b" "depth1" 1
  let st := (List.range 2).foldl WriteZ24Expand st
  let st := emit st "  if (!first) \x7b\n"
  -- upper 16
  let st := emit st "     ocol0.b = expanded0.g / 255.0;\n"
  let st := emit st "     ocol0.g = expanded0.b / 255.0;\n"
  let st := emit st "     ocol0.r = expanded1.g / 255.0;\n"
  let st := emit st "     ocol0.a = expanded1.b / 255.0;\n"
  let st := emit st "  \x7d else \x7b\n"
  -- lower 8
  let st := emit st "     ocol0.b = 1.0;\n"
  let st := emit st "     ocol0.g = expanded0.r / 255.0;\n"
  let st := emit st "     ocol0.r = 1.0;\n"
  let st := emit st "     ocol0.a = expanded1.r / 255.0;\n"
  let st := emit st "  \x7d\n"
  WriteEncoderEnd st

/-- Result of one `GenerateEncodingShader` call: the text emitted into the
scratch buffer by this call (the buffer additionally receives a NUL
terminator at index `text.length`, so the end-of-buffer canary byte at
index 16383 survives exactly when `text.length + 1 < 16384`), the value of
the `IntensityConstantAdded` flag when the call returns, and whether the
unknown-format `PanicAlert` fired. -/
structure GenResult where
  text : String
  flagOut : Bool
  alert : Bool

/-- Size of the static scratch buffer `char text[16384]`. -/
def encoderBufferSize : Nat := 16384

/-- `GenerateEncodingShader` (lines 533-627), with the mutable global flag
threaded explicitly: `flagIn` is the value of `IntensityConstantAdded` on
entry (the global is initialised to `false` at program start).  The
unknown-format `default` branch raises the alert and emits nothing. -/
def GenerateEncodingShader (format : Nat) (flagIn : Bool) : GenResult :=
  let st : EncState := { out := "", IntensityConstantAdded := flagIn }
  if format = GX_TF_I4 then
    let st := WriteI4Encoder st
    { text := st.out, flagOut := st.IntensityConstantAdded, alert := false }
  else if format = GX_TF_I8 then
    let st := WriteI8Encoder st
    { text := st.out, flagOut := st.IntensityConstantAdded, alert := false }
  else if format = GX_TF_IA4 then
    let st := WriteIA4Encoder st
    { text := st.out, flagOut := st.IntensityConstantAdded, alert := false }
  else if format = GX_TF_IA8 then
    let st := WriteIA8Encoder st
    { text := st.out, flagOut := st.IntensityConstantAdded, alert := false }
  else if format = GX_TF_RGB565 then
    let st := WriteRGB565Encoder st
    { text := st.out, flagOut := st.IntensityConstantAdded, alert := false }
  else if format = GX_TF_RGB5A3 then
    let st := WriteRGB5A3Encoder st
    { text := st.out, flagOut := st.IntensityConstantAdded, alert := false }
  else if format = GX_TF_RGBA8 then
    let st := WriteRGBA8Encoder st
    { text := st.out, flagOut := st.IntensityConstantAdded, alert := false }
  else if format = GX_CTF_R4 then
    let st := WriteC4Encoder st "r"
    { text := st.out, flagOut := st.IntensityConstantAdded, alert := false }
  else if format = GX_CTF_RA4 then
    let st := WriteCC4Encoder st "ar"
    { text := st.out, flagOut := st.IntensityConstantAdded, alert := false }
  else if format = GX_CTF_RA8 then
    let st := WriteCC8Encoder st "ar"
    { text := st.out, flagOut := st.IntensityConstantAdded, alert := false }
  else if format = GX_CTF_A8 then
    let st := WriteC8Encoder st "a"
    { text := st.out, flagOut := st.IntensityConstantAdded, alert := false }
  else if format = GX_CTF_R8 then
    let st := WriteC8Encoder st "r"
    { text := st.out, flagOut := st.IntensityConstantAdded, alert := false }
  else if format = GX_CTF_G8 then
    let st := WriteC8Encoder st "g"
    { text := st.out, flagOut := st.IntensityConstantAdded, alert := false }
  else if format = GX_CTF_B8 then
    let st := WriteC8Encoder st "b"
    { text := st.out, flagOut := st.IntensityConstantAdded, alert := false }
  else if format = GX_CTF_RG8 then
    let st := WriteCC8Encoder st "rg"
    { text := st.out, flagOut := st.IntensityConstantAdded, alert := false }
  else if format = GX_CTF_GB8 then
    let st := WriteCC8Encoder st "gb"
    { text := st.out, flagOut := st.IntensityConstantAdded, alert := false }
  else if format = GX_TF_Z8 then
    let st := WriteC8Encoder st "b"
    { text := st.out, flagOut := st.IntensityConstantAdded, alert := false }
  else if format = GX_TF_Z16 then
    let st := WriteZ16Encoder st
    { text := st.out, flagOut := st.IntensityConstantAdded, alert := false }
  else if format = GX_TF_Z24X8 then
    let st := WriteZ24Encoder st
    { text := st.out, flagOut := st.IntensityConstantAdded, alert := false }
  else if format = GX_CTF_Z4 then
    let st := WriteC4Encoder st "b"
    { text := st.out, flagOut := st.IntensityConstantAdded, alert := false }
  else if format = GX_CTF_Z8M then
    let st := WriteZ8Encoder st "256.0"
    { text := st.out, flagOut := st.IntensityConstantAdded, alert := false }
  else if format = GX_CTF_Z8L then
    let st := WriteZ8Encoder st "65536.0"
    { text := st.out, flagOut := st.IntensityConstantAdded, alert := false }
  else if format = GX_CTF_Z16L then
    let st := WriteZ16LEncoder st
    { text := st.out, flagOut := st.IntensityConstantAdded, alert := false }
  else
    -- PanicAlert("Unknown texture copy format ...")
    { text := st.out, flagOut := st.IntensityConstantAdded, alert := true }


/-! ## Evaluation helpers

A tail-style substring counter whose call-by-name evaluation stays
shallow, so concrete shader texts (thousands of characters) can be
checked inside the kernel. -/

/-- Number of positions of `l` at which `pat` occurs as a substring
(occurrences may overlap), with an accumulator. -/
def countOccAux (pat : List Char) : List Char → Nat → Nat
  | [], acc => acc
  | c :: rest, acc =>
    match List.isPrefixOf pat (c :: rest) with
    | true => countOccAux pat rest (acc + 1)
    | false => countOccAux pat rest acc

/-- Number of occurrences of the substring `pat` in `s`. -/
def countOcc (pat s : String) : Nat := countOccAux pat.data s.data 0

/-! ## DX11 post-processing engine (PostProcessing.cpp)

Shallow embedding of `DX11PostProcessing`.  Device-level effects (buffer
maps, texture binds, draws) are elided; what is modelled is the data the
claims speak about: constant-buffer layout arithmetic, the per-frame
parameter block, the vertex-geometry cache, the intermediate-image cache,
shader-text assembly and the `ApplyShader` recompile/fallback state
machine.  Single-precision floats are modelled as `ℚ`. -/

/-- `PostProcessingShaderConfiguration::ConfigurationOption::OptionType`. -/
inductive OptionType where
  | OPTION_BOOL
  | OPTION_INTEGER
  | OPTION_FLOAT

/-- `PostProcessingShaderConfiguration::ConfigurationOption` (the fields the
two loops read). -/
structure ConfigurationOption where
  m_type : OptionType
  m_bool_value : Bool
  m_integer_values : List Int
  m_float_values : List ℚ

/-- Byte size consumed by one option in the value-upload loop of
`BlitFromTexture` (lines 126-141): `sizeof(int)` for bool, and
`count * sizeof(int)` for integer and float vectors (the float case of the
source also multiplies by `sizeof(int)`; both are 4 bytes). -/
def uploadNeededSize (o : ConfigurationOption) : Nat :=
  match o.m_type with
  | .OPTION_BOOL => 4
  | .OPTION_INTEGER => o.m_integer_values.length * 4
  | .OPTION_FLOAT => o.m_float_values.length * 4

/-- Byte size consumed by one option in the declaration loop of
`LoadShaderOptions` (lines 658-681). -/
def declNeededSize (o : ConfigurationOption) : Nat :=
  match o.m_type with
  | .OPTION_BOOL => 4
  | .OPTION_INTEGER => o.m_integer_values.length * 4
  | .OPTION_FLOAT => o.m_float_values.length * 4

/-- The u32 expression `x & (~15)`: the low four bits cleared.  On `u32` this
equals `(x mod 2^32) - ((x mod 2^32) mod 16)`. -/
def alignDown16u32 (x : Nat) : Nat :=
  x % 4294967296 - x % 4294967296 % 16

/-- The declaration pass of `LoadShaderOptions` (lines 656-689): walking the
option map in iteration order with running `buffer_size`, inserting padding
up to the next 16-byte boundary when the entry does not fit
(`remaining < needed_size`).  Returns the byte offset at which each
declared entry is placed (the running size **after** the padding
adjustment, which is where the emitted field starts) and the final
`buffer_size`. -/
def LoadShaderOptionsLayoutAux : Nat → List (String × ConfigurationOption) → List Nat × Nat
  | b, [] => ([], b)
  | b, (_, o) :: rest =>
    let needed := declNeededSize o
    let remaining := alignDown16u32 (b + 15) - b
    let start := if remaining < needed then b + remaining else b
    let r := LoadShaderOptionsLayoutAux (start + needed) rest
    (start :: r.1, r.2)

/-- The value-upload pass of `BlitFromTexture` (lines 124-152): the same
running `buffer_size` recurrence, but the value bytes are written at the
current `dstdata` position **before** the padding adjustment (the
`switch` writes through `dstdata`, and only afterwards `dstdata` is
advanced by `remaining`).  Returns the byte offset at which each value is
written and the final `buffer_size`. -/
def BlitUploadLayoutAux : Nat → List (String × ConfigurationOption) → List Nat × Nat
  | b, [] => ([], b)
  | b, (_, o) :: rest =>
    let needed := uploadNeededSize o
    let remaining := alignDown16u32 (b + 15) - b
    let b2 := if remaining < needed then b + remaining else b
    let r := BlitUploadLayoutAux (b2 + needed) rest
    (b :: r.1, r.2)

/-- Modelled from the spec: the shading-language constant-buffer packing
rule ("no single scalar/vector crosses a 16-byte boundary", spec section
4.4) — an entry of `size` bytes starting at running offset `b` stays at `b`
unless it would not fit in the bytes remaining before the next 16-byte
boundary, in which case it is advanced to that boundary. -/
def specPackOffset (b size : Nat) : Nat :=
  if 16 - b % 16 < size then b + (16 - b % 16) else b

/-- One stage of the post-processing graph
(`PostProcessingShaderConfiguration::StageOption`). -/
structure Stage where
  m_stage_entry_point : String
  m_use_source_resolution : Bool
  m_outputScale : ℚ
  m_inputs : List Nat
deriving DecidableEq

/-- A fallback `Stage` value used to model the unchecked `stages[i]` access
(in-range for every reachable call with a non-empty stage list). -/
def defaultStage : Stage :=
  { m_stage_entry_point := "", m_use_source_resolution := false,
    m_outputScale := 1, m_inputs := [] }

/-- An intermediate render-target image (`D3DTexture2D`): only its
dimensions are modelled. -/
structure StageImage where
  width : Nat
  height : Nat

/-- `stages.size() - 1` computed on `size_t`: wraps modulo `2^64` when the
stage list is empty (PostProcessing.cpp line 219). -/
def sizeTSub1 (n : Nat) : Nat :=
  (n + (2 ^ 64 - 1)) % 2 ^ 64

/-- Dimensions of the intermediate image created for a non-final stage
(lines 242-245): the source or destination dimension, times the stage
output scale, truncated to an integer (`(u32)` cast of the float
product). -/
def mkStageImage (stage : Stage) (srcW srcH dstW dstH : Nat) : StageImage :=
  let w0 : Nat := if stage.m_use_source_resolution then srcW else dstW
  let h0 : Nat := if stage.m_use_source_resolution then srcH else dstH
  { width := (((w0 : ℚ) * stage.m_outputScale).floor).toNat,
    height := (((h0 : ℚ) * stage.m_outputScale).floor).toNat }

/-- The cached previous dimensions and the intermediate-image list of
`DX11PostProcessing` (members `m_prev_*`, `m_stageOutput`). -/
structure BlitCacheState where
  m_prev_dst_width : Nat
  m_prev_dst_height : Nat
  m_prev_src_width : Nat
  m_prev_src_height : Nat
  m_stageOutput : List StageImage

/-- The intermediate-image bookkeeping of `BlitFromTexture`
(lines 217-254): guarded by `finalstage > 0`; reallocates all
intermediates iff a source/destination rectangle dimension or the stage
count differs from the cached values; returns the new state and whether a
reallocation happened.  `srcW`/`srcH`/`dstW`/`dstH` are
`src.GetWidth()`/`src.GetHeight()`/`dst.GetWidth()`/`dst.GetHeight()` as
non-negative integers. -/
def updateIntermediates (st : BlitCacheState) (stages : List Stage)
    (srcW srcH dstW dstH : Nat) : BlitCacheState × Bool :=
  let finalstage := sizeTSub1 stages.length
  if 0 < finalstage then
    if 0 < finalstage ∧ (st.m_prev_dst_width ≠ dstW ∨ st.m_prev_dst_height ≠ dstH ∨
        st.m_prev_src_width ≠ srcW ∨ st.m_prev_src_height ≠ srcH ∨
        st.m_stageOutput.length ≠ finalstage) then
      let st2 : BlitCacheState :=
        { m_prev_dst_width := dstW, m_prev_dst_height := dstH,
          m_prev_src_width := srcW, m_prev_src_height := srcH,
          m_stageOutput := st.m_stageOutput }
      let imgs := (List.range finalstage).map fun i =>
        mkStageImage (stages.getD i defaultStage) st2.m_prev_src_width st2.m_prev_src_height
          st2.m_prev_dst_width st2.m_prev_dst_height
      ({ st2 with m_stageOutput := imgs }, true)
    else (st, false)
  else (st, false)

/-- `TargetRectangle` (integer pixel rectangle). -/
structure TargetRectangle where
  left : Int
  top : Int
  right : Int
  bottom : Int

/-- `TargetRectangle::GetWidth`. -/
def TargetRectangle.GetWidth (r : TargetRectangle) : Int := r.right - r.left

/-- `TargetRectangle.GetHeight`. -/
def TargetRectangle.GetHeight (r : TargetRectangle) : Int := r.bottom - r.top

/-- The normalized UV rectangle of the source rectangle
(`BlitFromTexture` lines 160-165): `sw = 1/src_width`, `sh = 1/src_height`,
`u0 = left*sw`, `u1 = right*sw`, `v0 = top*sh`, `v1 = bottom*sh`. -/
def computeBlitUV (src : TargetRectangle) (srcWidth srcHeight : Int) : ℚ × ℚ × ℚ × ℚ :=
  let sw : ℚ := 1 / (srcWidth : ℚ)
  let sh : ℚ := 1 / (srcHeight : ℚ)
  ((src.left : ℚ) * sw, (src.right : ℚ) * sw, (src.top : ℚ) * sh, (src.bottom : ℚ) * sh)

/-- The vertex-geometry cache: the wrap-observer flag registered with the
vertex buffer and the previously uploaded UV bounds (`pu0`, `pu1`, `pv0`,
`pv1`). -/
structure GeometryState where
  m_vertex_buffer_observer : Bool
  pu0 : ℚ
  pu1 : ℚ
  pv0 : ℚ
  pv1 : ℚ

/-- The geometry-upload step of `BlitFromTexture` (lines 180-194): the quad
is appended iff the observer flag is set or any UV bound changed; on
upload the observer flag is assigned `false` (after `AppendData` returns,
so a wrap signalled during this very append is immediately overwritten)
and the UV bounds are recorded.  Returns the new state and whether an
upload (`AppendData`) happened. -/
def updateGeometry (st : GeometryState) (u0 u1 v0 v1 : ℚ) : GeometryState × Bool :=
  if st.m_vertex_buffer_observer ∨ st.pu0 ≠ u0 ∨ st.pu1 ≠ u1 ∨ st.pv0 ≠ v0 ∨ st.pv1 ≠ v1 then
    ({ m_vertex_buffer_observer := false, pu0 := u0, pu1 := u1, pv0 := v0, pv1 := v1 }, true)
  else (st, false)

/-- `paramsStruct` (lines 19-30), with the four-float arrays as quadruples;
the unused `padding` field is omitted. -/
structure ParamsData where
  Time : Nat
  Layer : Int
  native_gamma : ℚ
  resolution : ℚ × ℚ × ℚ × ℚ
  targetscale : ℚ × ℚ × ℚ × ℚ

/-- The per-frame parameter block computed on every `BlitFromTexture` call
(lines 156-175). -/
def computeParams (src : TargetRectangle) (srcWidth srcHeight : Int) (layer : Int)
    (gamma : ℚ) (time : Nat) : ParamsData :=
  let sw : ℚ := 1 / (srcWidth : ℚ)
  let sh : ℚ := 1 / (srcHeight : ℚ)
  let u0 : ℚ := (src.left : ℚ) * sw
  let u1 : ℚ := (src.right : ℚ) * sw
  let v0 : ℚ := (src.top : ℚ) * sh
  let v1 : ℚ := (src.bottom : ℚ) * sh
  { Time := time
    Layer := layer
    native_gamma := 1 / gamma
    resolution := ((srcWidth : ℚ), (srcHeight : ℚ), sw, sh)
    targetscale := (u0, v0, 1 / (u1 - u0), 1 / (v1 - v0)) }

/-- `s.substr(0, n)` on the character list. -/
def strTake (s : String) (n : Nat) : String := String.mk (s.data.take n)

/-- `s.substr(n)` on the character list. -/
def strDrop (s : String) (n : Nat) : String := String.mk (s.data.drop n)

/-- First index `≥ i` at which `pat` occurs in the list (helper for
`std::string::find`). -/
def findSubstrAux (pat : List Char) : List Char → Nat → Option Nat
  | [], i =>
    match pat with
    | [] => some i
    | _ :: _ => none
  | c :: rest, i =>
    if List.isPrefixOf pat (c :: rest) then some i
    else findSubstrAux pat rest (i + 1)

/-- `std::string::find(pat, start)`. -/
def strFind (s pat : String) (start : Nat) : Option Nat :=
  findSubstrAux pat.data (s.data.drop start) 0 |>.map (start + ·)

/-- `s_hlsl_entry` (PostProcessing.cpp lines 303-313): the fixed parameter-list-and-prologue text spliced after each stage entry point. -/
def s_hlsl_entry : String :=
  "(\nout float4 ocol0 : SV_Target,\nin float4 frag_pos : SV_Position,\nin float2 _uv0 : TEXCOORD0,\nin float4 _uv1 : TEXCOORD1,\nin float4 _uv2 : TEXCOORD2)\n\x7b\nfragment_pos = frag_pos;\nuv0 = _uv0;\nuv1 = _uv1;\nuv2 = _uv2;\n"

/-- `s_hlsl_header` (lines 393-459): single-sample header variant. -/
def s_hlsl_header : String :=
  "\n// Required variables\n// Shouldn\x27t be accessed directly by the PP shader\n// Texture sampler\nsampler samp8 : register(s8);\nsampler samp9 : register(s9);\nsampler samp10 : register(s10);\nTexture2D Tex8 : register(t8);\nTexture2DArray Tex9 : register(t9);\nTexture2DArray Tex10 : register(t10);\nTexture2DArray Tex11[4] : register(t11);\n\ncbuffer ParamBuffer : register(b0) \n\x7b\n\tuint Time;\n\tint layer;\n\tfloat native_gamma;\n\tfloat padding;\n\tfloat4 resolution;\n\tfloat4 targetscale;\n\x7d\n\n// Globals\nstatic float2 uv0;\nstatic float4 uv1, uv2, fragment_pos;\n// Interfacing functions\nfloat2 GetFragmentCoord()\n\x7b\n\treturn fragment_pos.xy;\n\x7d\nfloat4 Sample(float2 location, int l)\n\x7b\n\treturn Tex9.Sample(samp9, float3(location, l));\n\x7d\nfloat4 SampleLocationOffset(float2 location, int2 offset)\n\x7b\n\treturn Tex9.Sample(samp9, float3(location, layer), offset);\n\x7d\nfloat4 SamplePrev(int idx, float2 location)\n\x7b\n\treturn Tex11[idx].Sample(samp9, float3((location - targetscale.xy) * targetscale.zw, 0));\n\x7d\nfloat4 SamplePrevLocationOffset(int idx, float2 location, int2 offset)\n\x7b\n\treturn Tex11[idx].Sample(samp9, float3((location - targetscale.xy) * targetscale.zw , 0), offset);\n\x7d\nfloat SampleDepth(float2 location, int l)\n\x7b\n\t/*float Znear = 0.001;\n\tfloat Zfar = 1.0;\n\tfloat A  = (1 - ( Zfar / Znear ))/2;\n\tfloat B = (1 + ( Zfar / Znear ))/2;*/\n\tfloat A = -499.5;\n\tfloat B =  500.5;\n\tfloat depth = 1.0 - Tex10.Sample(samp10, float3(location, l)).x;\n\tdepth = 1.0 / (A * depth + B);\n\treturn depth;\n\x7d\nfloat SampleDepthLoacationOffset(float2 location, int2 offset)\n\x7b\n\tfloat A = -499.5;\n\tfloat B =  500.5;\n\tfloat depth = 1.0 - Tex10.Sample(samp10, float3(location, layer), offset).x;\n\tdepth = 1.0 / (A * depth + B);\n\treturn depth;\n\x7d\n"

/-- `s_hlsl_header_MSAA` (lines 461-528): multisampled header variant; note it contains two `%d` conversion specifications. -/
def s_hlsl_header_MSAA : String :=
  "\n// Required variables\n// Shouldn\x27t be accessed directly by the PP shader\n// Texture sampler\nsampler samp8 : register(s8);\nsampler samp9 : register(s9);\nsampler samp10 : register(s10);\nTexture2D Tex8 : register(t8);\nTexture2DArray Tex9 : register(t9);\nTexture2DMSArray<float4, %d> Tex10 : register(t10);\nTexture2DArray Tex11[4] : register(t11);\n\ncbuffer ParamBuffer : register(b0) \n\x7b\n\tuint Time;\n\tint layer;\n\tfloat native_gamma;\n\tfloat padding;\n\tfloat4 resolution;\n\tfloat4 targetscale;\n\x7d\n\n// Globals\nstatic float2 uv0;\nstatic float4 uv1, uv2, fragment_pos;\n// Interfacing functions\nfloat2 GetFragmentCoord()\n\x7b\n\treturn fragment_pos.xy;\n\x7d\nfloat4 Sample(float2 location, int l)\n\x7b\n\treturn Tex9.Sample(samp9, float3(location, l));\n\x7d\nfloat4 SampleLocationOffset(float2 location, int2 offset)\n\x7b\n\treturn Tex9.Sample(samp9, float3(location, layer), offset);\n\x7d\nfloat4 SamplePrev(int idx, float2 location)\n\x7b\n\treturn Tex11[idx].Sample(samp9, float3((location - targetscale.xy) * targetscale.zw, 0));\n\x7d\nfloat4 SamplePrevLocationOffset(int idx, float2 location, int2 offset)\n\x7b\n\treturn Tex11[idx].Sample(samp9, float3((location - targetscale.xy) * targetscale.zw , 0), offset);\n\x7d\nfloat SampleDepth(float2 location, int l)\n\x7b\n\t/*float Znear = 0.001;\n\tfloat Zfar = 1.0;\n\tfloat A  = (1 - ( Zfar / Znear ))/2;\n\tfloat B = (1 + ( Zfar / Znear ))/2;*/\n\tfloat A = -499.5;\n\tfloat B =  500.5;\n\tfloat depth = 1.0 - Tex10.Load(int3(int2(resolution.xy * location), l), 0).x;\n\tdepth = 1.0 / (A * depth + B);\n\treturn depth;\n\x7d\nfloat SampleDepthLoacationOffset(float2 location, int2 offset)\n\x7b\n\tfloat A = -499.5;\n\tfloat B =  500.5;\n\tconst int samples = %d;\n\tfloat depth = 1.0 - Tex10.Load(int3(int2(resolution.xy * location), layer), 0, offset).x;\n\tdepth = 1.0 / (A * depth + B);\n\treturn depth;\n\x7d\n"

/-- `s_hlsl_interface` (lines 530-646). -/
def s_hlsl_interface : String :=
  "\nfloat4 Sample() \x7b return Sample(uv0, layer); \x7d\nfloat4 SampleOffset(int2 offset) \x7b return SampleLocationOffset(uv0, offset); \x7d\nfloat4 SamplePrev() \x7b return SamplePrev(0, uv0); \x7d\nfloat4 SamplePrev(int idx) \x7b return SamplePrev(idx, uv0); \x7d\nfloat4 SamplePrevOffset(int2 offset) \x7b return SamplePrevLocationOffset(0, uv0, offset); \x7d\nfloat4 SamplePrevOffset(int idx, int2 offset) \x7b return SamplePrevLocationOffset(idx, uv0, offset); \x7d\nfloat SampleDepth() \x7b return SampleDepth(uv0, layer); \x7d\nfloat SampleDepthOffset(int2 offset) \x7b return SampleDepthLoacationOffset(uv0, offset); \x7d\nfloat4 SampleLocation(float2 location) \x7b return Sample(location, layer); \x7d\nfloat SampleDepthLocation(float2 location) \x7b return SampleDepth(location, layer); \x7d\nfloat4 SamplePrevLocation(float2 location) \x7b return SamplePrev(0, location); \x7d\nfloat4 SamplePrevLocation(int idx, float2 location) \x7b return SamplePrev(idx, location); \x7d\nfloat4 SampleLayer(int l) \x7b return Sample(uv0, l); \x7d\nfloat SampleDepthLayer(int l) \x7b return SampleDepth(uv0, l); \x7d\nfloat4 SampleFontLocation(float2 location) \x7b return Tex8.Sample(samp8, location); \x7d\n\nfloat4 ApplyGCGamma(float4 col)\n\x7b\n\treturn pow(col, native_gamma);\n\x7d\nfloat2 GetResolution()\n\x7b\n\treturn resolution.xy;\n\x7d\nfloat2 GetInvResolution()\n\x7b\n\treturn resolution.zw;\n\x7d\nfloat2 GetCoordinates()\n\x7b\n\treturn uv0;\n\x7d\nuint GetTime()\n\x7b\n\treturn Time;\n\x7d\n\n#define SetOutput(color) ocol0 = color\n#define mult(a, b) mul(b, a)\n#define GetOption(x) (option_##x)\n#define OptionEnabled(x) (option_##x != 0)\n\n//Random\nstatic float global_rnd_state;\n\nfloat RandomSeedfloat(float2 seed)\n\x7b\n\tfloat noise = frac(sin(dot(seed, float2(12.9898, 78.233)*2.0)) * 43758.5453);\n\treturn noise;\n\x7d\n\nvoid rnd_advance()\n\x7b\n    global_rnd_state = RandomSeedfloat(uv0 + global_rnd_state);\n\x7d\n\nuint RandomSeeduint(float2 seed)\n\x7b\n\tfloat noise = RandomSeedfloat(seed);\n\treturn uint(noise * 0xFFFFFF);\n\x7d\n\nvoid Randomize()\n\x7b\n\tglobal_rnd_state = frac(float(GetTime())*0.0001);\n\x7d\n\nuint Rndint()\n\x7b\n\trnd_advance();\n\treturn uint(global_rnd_state * 0xFFFFFF);\n\x7d\n\nfloat Rndfloat()\n\x7b\n\trnd_advance();\n\treturn global_rnd_state;\n\x7d\n\nfloat2 Rndfloat2()\n\x7b\n\tfloat2 val;\n\trnd_advance();\n\tval.x = global_rnd_state;\n\trnd_advance();\n\tval.y = global_rnd_state;\n\treturn val;\n\x7d\n\nfloat3 Rndfloat3()\n\x7b\n\tfloat3 val;\n\trnd_advance();\n\tval.x = global_rnd_state;\n\trnd_advance();\n\tval.y = global_rnd_state;\n\trnd_advance();\n\tval.z = global_rnd_state;\n\treturn val;\n\x7d\n\nfloat4 Rndfloat4()\n\x7b\n\tfloat4 val;\n\trnd_advance();\n\tval.x = global_rnd_state;\n\trnd_advance();\n\tval.y = global_rnd_state;\n\trnd_advance();\n\tval.z = global_rnd_state;\n\trnd_advance();\n\tval.w = global_rnd_state;\n\treturn val;\n\x7d\n\n"


/-- `DX11PostProcessing::InitStages` text surgery, one stage at a time
(PostProcessing.cpp lines 320-337): look for `"void " + entry point`; if
absent (or no opening brace after it) the whole result becomes empty and
the loop breaks; otherwise splice `s_hlsl_entry` between the entry-point
name and the body, dropping the original parameter list and opening
brace. -/
def InitStagesGo : List Stage → String → String
  | [], result => result
  | stage :: rest, result =>
    let glslentry := "void " ++ stage.m_stage_entry_point
    match strFind result glslentry 0 with
    | none => ""
    | some entryPointStart =>
      match strFind result "\x7b" entryPointStart with
      | none => ""
      | some entryPointEnd =>
        InitStagesGo rest
          (strTake result (entryPointStart + glslentry.length) ++ s_hlsl_entry ++
            strDrop result (entryPointEnd + 1))

/-- The string transformation performed by `DX11PostProcessing::InitStages`
(lines 315-339).  (The `m_pshader.resize(stages.size())` side effect inside
`InitStages` is applied at the call sites in `ApplyShader` below.) -/
def InitStagesText (stages : List Stage) (code : String) : String :=
  InitStagesGo stages code

/-- The `%d`-substitution performed by `StringFromFormat` (a `vsnprintf`
wrapper): each `%d` consumes the next variadic argument.  When the
arguments run out — as happens for the second `%d` of
`s_hlsl_header_MSAA`, which is called with a single argument — reading the
next vararg is undefined behaviour; the indeterminate value read is
modelled by the extra parameter `junk`. -/
def sprintfDAux (junk : Int) : List Char → List Int → List Char
  | [], _ => []
  | '%' :: 'd' :: rest, args =>
    (toString (args.headD junk)).data ++ sprintfDAux junk rest args.tail
  | c :: rest, args => c :: sprintfDAux junk rest args

/-- `StringFromFormat(fmt, args...)` restricted to `%d` conversions. -/
def StringFromFormatD (fmt : String) (args : List Int) (junk : Int) : String :=
  String.mk (sprintfDAux junk fmt.data args)

/-- The declaration emitted for one option by `LoadShaderOptions`
(lines 659-681), with the `%s`/`%d` conversions substituted. -/
def optionDeclLine (name : String) (o : ConfigurationOption) : String :=
  match o.m_type with
  | .OPTION_BOOL => "int     option_" ++ name ++ ";\n"
  | .OPTION_INTEGER =>
    let count := o.m_integer_values.length
    if count < 2 then "int     option_" ++ name ++ ";\n"
    else "int" ++ uFmt count ++ "   option_" ++ name ++ ";\n"
  | .OPTION_FLOAT =>
    let count := o.m_float_values.length
    if count < 2 then "float   option_" ++ name ++ ";\n"
    else "float" ++ uFmt count ++ " option_" ++ name ++ ";\n"

/-- The string produced by `DX11PostProcessing::LoadShaderOptions`
(lines 648-715): option-buffer declaration text (empty when there are no
options or the packed size is zero), then the header — the plain variant
when the previously recorded sample count is 1, the MSAA variant with the
sample count substituted by `StringFromFormat` otherwise — concatenated
with the interface library, the option declarations and the stage code.
The device-buffer allocation performed alongside is not modelled. -/
def LoadShaderOptionsText (options : List (String × ConfigurationOption))
    (prevSamples : Nat) (junk : Int) (code : String) : String :=
  let hlsl_options : String :=
    if options.isEmpty then ""
    else
      let txt := "cbuffer OptionBuffer : register(b1) \x7b" ++
        String.join (options.map fun p => optionDeclLine p.1 p.2) ++ "\x7d\n"
      let buffer_size := (LoadShaderOptionsLayoutAux 0 options).2
      if 0 < buffer_size then txt else ""
  let header : String :=
    if prevSamples = 1 then s_hlsl_header
    else StringFromFormatD s_hlsl_header_MSAA [Int.ofNat prevSamples] junk
  header ++ s_hlsl_interface ++ hlsl_options ++ code

/-- A compiled pixel-shader program, identified by the source text and the
explicit entry point (`none` = the compiler default) it was compiled
from. -/
def PProgram : Type := String × Option String

/-- The environment `ApplyShader` reads: the loaded configuration
(`m_config`), the active-config sample count, and the external shader
compiler, modelled as an oracle deciding which (text, entry point) pairs
compile successfully. -/
structure PPEnv where
  configShaderName : String
  rawSource : String
  stages : List Stage
  options : List (String × ConfigurationOption)
  aaCount : Nat
  compile : String → Option String → Bool

/-- The mutable engine state `ApplyShader` touches, together with the
global `g_Config.sPostProcessingShader` / `g_ActiveConfig.sPostProcessingShader`
selection (cleared together by the fallback; modelled as one field). -/
structure PPState where
  m_initialized : Bool
  m_prev_samples : Nat
  m_pshader : List (Option PProgram)
  m_stageOutput : List StageImage
  sPostProcessingShader : String

/-- `std::vector::resize` on the program list: keeps a prefix, extends with
null programs. -/
def resizeList (l : List (Option PProgram)) (n : Nat) : List (Option PProgram) :=
  l.take n ++ List.replicate (n - l.length) none

/-- The compile loop of `ApplyShader` (lines 366-375): compile one program
per stage with the stage entry point; on the first failure the loop breaks,
leaving the remaining slots null, and the engine is flagged
uninitialized.  Returns the program list (one slot per stage) and the
success flag. -/
def compileStages (compile : String → Option String → Bool) (code : String) :
    List Stage → List (Option PProgram) × Bool
  | [] => ([], true)
  | stage :: rest =>
    if compile code (some stage.m_stage_entry_point) then
      let r := compileStages compile code rest
      (some (code, some stage.m_stage_entry_point) :: r.1, r.2)
    else
      (none :: rest.map (fun _ => none), false)

/-- The shader text `ApplyShader` compiles:
`LoadShaderOptions(InitStages(m_config.LoadShader()))` (lines 359-361; the
fallback path recomputes the identical expression at line 387). -/
def assembledCode (env : PPEnv) (junk : Int) : String :=
  LoadShaderOptionsText env.options env.aaCount junk (InitStagesText env.stages env.rawSource)

/-- `DX11PostProcessing::ApplyShader` (lines 341-391).  Early-out when the
engine is initialized with the active preset and sample count; otherwise
release intermediates and programs, assemble and compile one program per
stage; on any failure fall back: clear the active-preset selection, drop
all partial programs, recompile the assembled source as a single default
pass (entry point left to the compiler default) and mark the engine
initialized regardless. -/
def ApplyShader (env : PPEnv) (st : PPState) (junk : Int) : PPState :=
  if st.m_initialized = true ∧ env.configShaderName = st.sPostProcessingShader ∧
      st.m_prev_samples = env.aaCount then st
  else
    let st1 : PPState :=
      { st with m_prev_samples := env.aaCount, m_stageOutput := [] }
    let pshader0 := st1.m_pshader.map fun _ => (none : Option PProgram)
    let st2 : PPState := { st1 with m_pshader := resizeList pshader0 env.stages.length }
    let code := assembledCode env junk
    let r := compileStages env.compile code env.stages
    if r.2 then
      { st2 with m_pshader := r.1, m_initialized := true }
    else
      let pshader2 := resizeList (r.1.map fun _ => (none : Option PProgram)) 1
      let pshader3 := resizeList pshader2 env.stages.length
      let prog0 : Option PProgram :=
        if env.compile code none then some (code, none) else none
      { st2 with
        sPostProcessingShader := ""
        m_pshader := pshader3.set 0 prog0
        m_initialized := true }

/-- Number of non-null (working) programs in a program list. -/
def countSome (l : List (Option PProgram)) : Nat :=
  (l.filter fun x => x.isSome).length

/-- The declaration line emitted for the luminance constant by
`WriteColorToIntensity`. -/
def intensityDeclLine : String :=
  "  float4 IntensityConst = float4(0.257f,0.504f,0.098f,0.0625f);\n"

/-- The format codes whose encoders use intensity conversion (call
`WriteColorToIntensity`): I4, I8, IA4, IA8. -/
def intensityFormatCodes : List Nat :=
  [GX_TF_I4, GX_TF_I8, GX_TF_IA4, GX_TF_IA8]

/-- The text `GenerateEncodingShader` emits for `GX_TF_I4` (golden copy,
proved equal to the generator output below). -/
def goldenI4Text : String :=
  "uniform int4 position;\n#define samp0 samp9\nSAMPLER_BINDING(9) uniform sampler2D samp0;\n  out vec4 ocol0;\nvoid main()\n\x7b\n  int2 sampleUv;\n  int2 uv1 = int2(gl_FragCoord.xy);\n  int y_block_position = uv1.y & -8;\n  int y_offset_in_block = uv1.y & 7;\n  int x_virtual_position = (uv1.x << 3) + y_offset_in_block * position.z;\n  int x_block_position = (x_virtual_position >> 3) & -8;\n  int x_offset_in_block = x_virtual_position & 7;\n  int y_offset = (x_virtual_position >> 3) & 7;\n  sampleUv.x = x_offset_in_block + x_block_position;\n  sampleUv.y = y_block_position + y_offset;\n  float2 uv0 = float2(sampleUv);\n  uv0 += float2(0.5, 0.5);\n  uv0 *= float(position.w);\n  uv0 += float2(position.xy);\n  uv0 /= float2(640, 528);\n  uv0.y = 1.0-uv0.y;\n  float sample_offset = float(position.w) / float(640);\n  float3 texSample;\n  float4 color0;\n  float4 color1;\n  texSample = texture(samp0, uv0 + float2(0, 0) * sample_offset).rgb;\n  float4 IntensityConst = float4(0.257f,0.504f,0.098f,0.0625f);\n  color0.b = dot(IntensityConst.rgb, texSample.rgb);\n  texSample = texture(samp0, uv0 + float2(1, 0) * sample_offset).rgb;\n  color1.b = dot(IntensityConst.rgb, texSample.rgb);\n  texSample = texture(samp0, uv0 + float2(2, 0) * sample_offset).rgb;\n  color0.g = dot(IntensityConst.rgb, texSample.rgb);\n  texSample = texture(samp0, uv0 + float2(3, 0) * sample_offset).rgb;\n  color1.g = dot(IntensityConst.rgb, texSample.rgb);\n  texSample = texture(samp0, uv0 + float2(4, 0) * sample_offset).rgb;\n  color0.r = dot(IntensityConst.rgb, texSample.rgb);\n  texSample = texture(samp0, uv0 + float2(5, 0) * sample_offset).rgb;\n  color1.r = dot(IntensityConst.rgb, texSample.rgb);\n  texSample = texture(samp0, uv0 + float2(6, 0) * sample_offset).rgb;\n  color0.a = dot(IntensityConst.rgb, texSample.rgb);\n  texSample = texture(samp0, uv0 + float2(7, 0) * sample_offset).rgb;\n  color1.a = dot(IntensityConst.rgb, texSample.rgb);\n  color0.rgba += IntensityConst.aaaa;\n  color1.rgba += IntensityConst.aaaa;\n  color0 = floor(color0 * 255.0 / exp2(8.0 - 4.0));\n  color1 = floor(color1 * 255.0 / exp2(8.0 - 4.0));\n  ocol0 = (color0 * 16.0 + color1) / 255.0;\n\x7d\n"

/-- The text `GenerateEncodingShader` emits for `GX_TF_I8` (golden copy,
proved equal to the generator output below). -/
def goldenI8Text : String :=
  "uniform int4 position;\n#define samp0 samp9\nSAMPLER_BINDING(9) uniform sampler2D samp0;\n  out vec4 ocol0;\nvoid main()\n\x7b\n  int2 sampleUv;\n  int2 uv1 = int2(gl_FragCoord.xy);\n  int y_block_position = uv1.y & -4;\n  int y_offset_in_block = uv1.y & 3;\n  int x_virtual_position = (uv1.x << 2) + y_offset_in_block * position.z;\n  int x_block_position = (x_virtual_position >> 2) & -8;\n  int x_offset_in_block = x_virtual_position & 7;\n  int y_offset = (x_virtual_position >> 3) & 3;\n  sampleUv.x = x_offset_in_block + x_block_position;\n  sampleUv.y = y_block_position + y_offset;\n  float2 uv0 = float2(sampleUv);\n  uv0 += float2(0.5, 0.5);\n  uv0 *= float(position.w);\n  uv0 += float2(position.xy);\n  uv0 /= float2(640, 528);\n  uv0.y = 1.0-uv0.y;\n  float sample_offset = float(position.w) / float(640);\n  float3 texSample;\n  texSample = texture(samp0, uv0 + float2(0, 0) * sample_offset).rgb;\n  float4 IntensityConst = float4(0.257f,0.504f,0.098f,0.0625f);\n  ocol0.b = dot(IntensityConst.rgb, texSample.rgb);\n  texSample = texture(samp0, uv0 + float2(1, 0) * sample_offset).rgb;\n  ocol0.g = dot(IntensityConst.rgb, texSample.rgb);\n  texSample = texture(samp0, uv0 + float2(2, 0) * sample_offset).rgb;\n  ocol0.r = dot(IntensityConst.rgb, texSample.rgb);\n  texSample = texture(samp0, uv0 + float2(3, 0) * sample_offset).rgb;\n  ocol0.a = dot(IntensityConst.rgb, texSample.rgb);\n  ocol0.rgba += IntensityConst.aaaa;\n\x7d\n"

/-- The text `GenerateEncodingShader` emits for `GX_TF_IA4` (golden copy,
proved equal to the generator output below). -/
def goldenIA4Text : String :=
  "uniform int4 position;\n#define samp0 samp9\nSAMPLER_BINDING(9) uniform sampler2D samp0;\n  out vec4 ocol0;\nvoid main()\n\x7b\n  int2 sampleUv;\n  int2 uv1 = int2(gl_FragCoord.xy);\n  int y_block_position = uv1.y & -4;\n  int y_offset_in_block = uv1.y & 3;\n  int x_virtual_position = (uv1.x << 2) + y_offset_in_block * position.z;\n  int x_block_position = (x_virtual_position >> 2) & -8;\n  int x_offset_in_block = x_virtual_position & 7;\n  int y_offset = (x_virtual_position >> 3) & 3;\n  sampleUv.x = x_offset_in_block + x_block_position;\n  sampleUv.y = y_block_position + y_offset;\n  float2 uv0 = float2(sampleUv);\n  uv0 += float2(0.5, 0.5);\n  uv0 *= float(position.w);\n  uv0 += float2(position.xy);\n  uv0 /= float2(640, 528);\n  uv0.y = 1.0-uv0.y;\n  float sample_offset = float(position.w) / float(640);\n  float4 texSample;\n  float4 color0;\n  float4 color1;\n  texSample = texture(samp0, uv0 + float2(0, 0) * sample_offset).rgba;\n  color0.b = texSample.a;\n  float4 IntensityConst = float4(0.257f,0.504f,0.098f,0.0625f);\n  color1.b = dot(IntensityConst.rgb, texSample.rgb);\n  texSample = texture(samp0, uv0 + float2(1, 0) * sample_offset).rgba;\n  color0.g = texSample.a;\n  color1.g = dot(IntensityConst.rgb, texSample.rgb);\n  texSample = texture(samp0, uv0 + float2(2, 0) * sample_offset).rgba;\n  color0.r = texSample.a;\n  color1.r = dot(IntensityConst.rgb, texSample.rgb);\n  texSample = texture(samp0, uv0 + float2(3, 0) * sample_offset).rgba;\n  color0.a = texSample.a;\n  color1.a = dot(IntensityConst.rgb, texSample.rgb);\n  color1.rgba += IntensityConst.aaaa;\n  color0 = floor(color0 * 255.0 / exp2(8.0 - 4.0));\n  color1 = floor(color1 * 255.0 / exp2(8.0 - 4.0));\n  ocol0 = (color0 * 16.0 + color1) / 255.0;\n\x7d\n"

/-- The text `GenerateEncodingShader` emits for `GX_TF_IA8` (golden copy,
proved equal to the generator output below). -/
def goldenIA8Text : String :=
  "uniform int4 position;\n#define samp0 samp9\nSAMPLER_BINDING(9) uniform sampler2D samp0;\n  out vec4 ocol0;\nvoid main()\n\x7b\n  int2 sampleUv;\n  int2 uv1 = int2(gl_FragCoord.xy);\n  int y_block_position = uv1.y & -4;\n  int y_offset_in_block = uv1.y & 3;\n  int x_virtual_position = (uv1.x << 1) + y_offset_in_block * position.z;\n  int x_block_position = (x_virtual_position >> 2) & -4;\n  int x_offset_in_block = x_virtual_position & 3;\n  int y_offset = (x_virtual_position >> 2) & 3;\n  sampleUv.x = x_offset_in_block + x_block_position;\n  sampleUv.y = y_block_position + y_offset;\n  float2 uv0 = float2(sampleUv);\n  uv0 += float2(0.5, 0.5);\n  uv0 *= float(position.w);\n  uv0 += float2(position.xy);\n  uv0 /= float2(640, 528);\n  uv0.y = 1.0-uv0.y;\n  float sample_offset = float(position.w) / float(640);\n  float4 texSample;\n  texSample = texture(samp0, uv0 + float2(0, 0) * sample_offset).rgba;\n  ocol0.b = texSample.a;\n  float4 IntensityConst = float4(0.257f,0.504f,0.098f,0.0625f);\n  ocol0.g = dot(IntensityConst.rgb, texSample.rgb);\n  texSample = texture(samp0, uv0 + float2(1, 0) * sample_offset).rgba;\n  ocol0.r = texSample.a;\n  ocol0.a = dot(IntensityConst.rgb, texSample.rgb);\n  ocol0.ga += IntensityConst.aa;\n\x7d\n"


/-- The option set of the spec's packing example:
`{bool a; floatVector(3) b; int a2}`. -/
def exampleOptionsC2 : List (String × ConfigurationOption) :=
  [("a", { m_type := .OPTION_BOOL, m_bool_value := true,
           m_integer_values := [], m_float_values := [] }),
   ("b", { m_type := .OPTION_FLOAT, m_bool_value := false,
           m_integer_values := [], m_float_values := [1, 1, 1] }),
   ("a2", { m_type := .OPTION_INTEGER, m_bool_value := false,
            m_integer_values := [0], m_float_values := [] })]

/-- An option set where nonzero padding is actually inserted:
`{floatVector(3) a; floatVector(3) b}`. -/
def exampleOptionsPad : List (String × ConfigurationOption) :=
  [("a", { m_type := .OPTION_FLOAT, m_bool_value := false,
           m_integer_values := [], m_float_values := [1, 1, 1] }),
   ("b", { m_type := .OPTION_FLOAT, m_bool_value := false,
           m_integer_values := [], m_float_values := [2, 2, 2] })]

/-- A one-stage environment whose stage entry point does not occur in the
raw source and whose compiler oracle rejects every named entry point but
accepts the default one (used to witness the fallback path). -/
def c3stage : Stage :=
  { m_stage_entry_point := "StageA", m_use_source_resolution := false,
    m_outputScale := 1, m_inputs := [] }

def c3env : PPEnv :=
  { configShaderName := "broken-preset"
    rawSource := "float4 Foo() \x7b return float4(1.0, 1.0, 1.0, 1.0); \x7d"
    stages := [c3stage]
    options := []
    aaCount := 1
    compile := fun _ e => e.isNone }

/-- A geometry cache holding the UV bounds of the 64-pixel source
rectangle, with the wrap-observer flag clear. -/
def c7state : GeometryState :=
  { m_vertex_buffer_observer := false, pu0 := 0, pu1 := 1, pv0 := 0, pv1 := 1 }

/-- A fresh (uninitialized) engine state. -/
def c3state : PPState :=
  { m_initialized := false, m_prev_samples := 0, m_pshader := [],
    m_stageOutput := [], sPostProcessingShader := "broken-preset" }

/-! ## Claim C1 -/

/-!
The emitted length of each supported format, established by decomposing
the generated text symbolically (`String.length_append` over the emitted
chunks) rather than by evaluating the whole string inside the kernel.
-/

set_option maxRecDepth 8000 in
set_option maxHeartbeats 1000000 in
theorem c1_len_I4 : (GenerateEncodingShader GX_TF_I4 false).text.length = 2122 := by
  simp [GenerateEncodingShader, GX_TF_I4, GX_TF_I8, GX_TF_IA4, GX_TF_IA8, GX_TF_RGB565,
    GX_TF_RGB5A3, GX_TF_RGBA8, GX_TF_Z8, GX_TF_Z16, GX_TF_Z24X8, GX_CTF_R4, GX_CTF_RA4,
    GX_CTF_RA8, GX_CTF_A8, GX_CTF_R8, GX_CTF_G8, GX_CTF_B8, GX_CTF_RG8, GX_CTF_GB8,
    GX_CTF_Z4, GX_CTF_Z8M, GX_CTF_Z8L, GX_CTF_Z16L,
    WriteI4Encoder, WriteI8Encoder, WriteIA4Encoder, WriteIA8Encoder, WriteRGB565Encoder,
    WriteRGB5A3Encoder, WriteRGBA8Encoder, WriteC4Encoder, WriteC8Encoder, WriteCC4Encoder,
    WriteCC8Encoder, WriteZ8Encoder, WriteZ16Encoder, WriteZ16LEncoder, WriteZ24Encoder,
    WriteZ24Expand, WriteSwizzler, WriteSampleColor, WriteColorToIntensity, WriteToBitDepth,
    WriteEncoderEnd, emit,
    TexDecoder_GetBlockWidthInTexels, TexDecoder_GetBlockHeightInTexels,
    GetEncodedSampleCount, IntLog2, intLog2Fuel, EFB_WIDTH, EFB_HEIGHT,
    cNot, dFmt, uFmt, String.length_append]
  decide

set_option maxRecDepth 8000 in
set_option maxHeartbeats 1000000 in
theorem c1_len_I8 : (GenerateEncodingShader GX_TF_I8 false).text.length = 1405 := by
  simp [GenerateEncodingShader, GX_TF_I4, GX_TF_I8, GX_TF_IA4, GX_TF_IA8, GX_TF_RGB565,
    GX_TF_RGB5A3, GX_TF_RGBA8, GX_TF_Z8, GX_TF_Z16, GX_TF_Z24X8, GX_CTF_R4, GX_CTF_RA4,
    GX_CTF_RA8, GX_CTF_A8, GX_CTF_R8, GX_CTF_G8, GX_CTF_B8, GX_CTF_RG8, GX_CTF_GB8,
    GX_CTF_Z4, GX_CTF_Z8M, GX_CTF_Z8L, GX_CTF_Z16L,
    WriteI4Encoder, WriteI8Encoder, WriteIA4Encoder, WriteIA8Encoder, WriteRGB565Encoder,
    WriteRGB5A3Encoder, WriteRGBA8Encoder, WriteC4Encoder, WriteC8Encoder, WriteCC4Encoder,
    WriteCC8Encoder, WriteZ8Encoder, WriteZ16Encoder, WriteZ16LEncoder, WriteZ24Encoder,
    WriteZ24Expand, WriteSwizzler, WriteSampleColor, WriteColorToIntensity, WriteToBitDepth,
    WriteEncoderEnd, emit,
    TexDecoder_GetBlockWidthInTexels, TexDecoder_GetBlockHeightInTexels,
    GetEncodedSampleCount, IntLog2, intLog2Fuel, EFB_WIDTH, EFB_HEIGHT,
    cNot, dFmt, uFmt, String.length_append]
  decide

set_option maxRecDepth 8000 in
set_option maxHeartbeats 1000000 in
theorem c1_len_IA4 : (GenerateEncodingShader GX_TF_IA4 false).text.length = 1700 := by
  simp [GenerateEncodingShader, GX_TF_I4, GX_TF_I8, GX_TF_IA4, GX_TF_IA8, GX_TF_RGB565,
    GX_TF_RGB5A3, GX_TF_RGBA8, GX_TF_Z8, GX_TF_Z16, GX_TF_Z24X8, GX_CTF_R4, GX_CTF_RA4,
    GX_CTF_RA8, GX_CTF_A8, GX_CTF_R8, GX_CTF_G8, GX_CTF_B8, GX_CTF_RG8, GX_CTF_GB8,
    GX_CTF_Z4, GX_CTF_Z8M, GX_CTF_Z8L, GX_CTF_Z16L,
    WriteI4Encoder, WriteI8Encoder, WriteIA4Encoder, WriteIA8Encoder, WriteRGB565Encoder,
    WriteRGB5A3Encoder, WriteRGBA8Encoder, WriteC4Encoder, WriteC8Encoder, WriteCC4Encoder,
    WriteCC8Encoder, WriteZ8Encoder, WriteZ16Encoder, WriteZ16LEncoder, WriteZ24Encoder,
    WriteZ24Expand, WriteSwizzler, WriteSampleColor, WriteColorToIntensity, WriteToBitDepth,
    WriteEncoderEnd, emit,
    TexDecoder_GetBlockWidthInTexels, TexDecoder_GetBlockHeightInTexels,
    GetEncodedSampleCount, IntLog2, intLog2Fuel, EFB_WIDTH, EFB_HEIGHT,
    cNot, dFmt, uFmt, String.length_append]
  decide

set_option maxRecDepth 8000 in
set_option maxHeartbeats 1000000 in
theorem c1_len_IA8 : (GenerateEncodingShader GX_TF_IA8 false).text.length = 1209 := by
  simp [GenerateEncodingShader, GX_TF_I4, GX_TF_I8, GX_TF_IA4, GX_TF_IA8, GX_TF_RGB565,
    GX_TF_RGB5A3, GX_TF_RGBA8, GX_TF_Z8, GX_TF_Z16, GX_TF_Z24X8, GX_CTF_R4, GX_CTF_RA4,
    GX_CTF_RA8, GX_CTF_A8, GX_CTF_R8, GX_CTF_G8, GX_CTF_B8, GX_CTF_RG8, GX_CTF_GB8,
    GX_CTF_Z4, GX_CTF_Z8M, GX_CTF_Z8L, GX_CTF_Z16L,
    WriteI4Encoder, WriteI8Encoder, WriteIA4Encoder, WriteIA8Encoder, WriteRGB565Encoder,
    WriteRGB5A3Encoder, WriteRGBA8Encoder, WriteC4Encoder, WriteC8Encoder, WriteCC4Encoder,
    WriteCC8Encoder, WriteZ8Encoder, WriteZ16Encoder, WriteZ16LEncoder, WriteZ24Encoder,
    WriteZ24Expand, WriteSwizzler, WriteSampleColor, WriteColorToIntensity, WriteToBitDepth,
    WriteEncoderEnd, emit,
    TexDecoder_GetBlockWidthInTexels, TexDecoder_GetBlockHeightInTexels,
    GetEncodedSampleCount, IntLog2, intLog2Fuel, EFB_WIDTH, EFB_HEIGHT,
    cNot, dFmt, uFmt, String.length_append]
  decide

set_option maxRecDepth 8000 in
set_option maxHeartbeats 1000000 in
theorem c1_len_RGB565 : (GenerateEncodingShader GX_TF_RGB565 false).text.length = 1451 := by
  simp [GenerateEncodingShader, GX_TF_I4, GX_TF_I8, GX_TF_IA4, GX_TF_IA8, GX_TF_RGB565,
    GX_TF_RGB5A3, GX_TF_RGBA8, GX_TF_Z8, GX_TF_Z16, GX_TF_Z24X8, GX_CTF_R4, GX_CTF_RA4,
    GX_CTF_RA8, GX_CTF_A8, GX_CTF_R8, GX_CTF_G8, GX_CTF_B8, GX_CTF_RG8, GX_CTF_GB8,
    GX_CTF_Z4, GX_CTF_Z8M, GX_CTF_Z8L, GX_CTF_Z16L,
    WriteI4Encoder, WriteI8Encoder, WriteIA4Encoder, WriteIA8Encoder, WriteRGB565Encoder,
    WriteRGB5A3Encoder, WriteRGBA8Encoder, WriteC4Encoder, WriteC8Encoder, WriteCC4Encoder,
    WriteCC8Encoder, WriteZ8Encoder, WriteZ16Encoder, WriteZ16LEncoder, WriteZ24Encoder,
    WriteZ24Expand, WriteSwizzler, WriteSampleColor, WriteColorToIntensity, WriteToBitDepth,
    WriteEncoderEnd, emit,
    TexDecoder_GetBlockWidthInTexels, TexDecoder_GetBlockHeightInTexels,
    GetEncodedSampleCount, IntLog2, intLog2Fuel, EFB_WIDTH, EFB_HEIGHT,
    cNot, dFmt, uFmt, String.length_append]
  decide

set_option maxRecDepth 8000 in
set_option maxHeartbeats 1000000 in
theorem c1_len_RGB5A3 : (GenerateEncodingShader GX_TF_RGB5A3 false).text.length = 2347 := by
  simp [GenerateEncodingShader, GX_TF_I4, GX_TF_I8, GX_TF_IA4, GX_TF_IA8, GX_TF_RGB565,
    GX_TF_RGB5A3, GX_TF_RGBA8, GX_TF_Z8, GX_TF_Z16, GX_TF_Z24X8, GX_CTF_R4, GX_CTF_RA4,
    GX_CTF_RA8, GX_CTF_A8, GX_CTF_R8, GX_CTF_G8, GX_CTF_B8, GX_CTF_RG8, GX_CTF_GB8,
    GX_CTF_Z4, GX_CTF_Z8M, GX_CTF_Z8L, GX_CTF_Z16L,
    WriteI4Encoder, WriteI8Encoder, WriteIA4Encoder, WriteIA8Encoder, WriteRGB565Encoder,
    WriteRGB5A3Encoder, WriteRGBA8Encoder, WriteC4Encoder, WriteC8Encoder, WriteCC4Encoder,
    WriteCC8Encoder, WriteZ8Encoder, WriteZ16Encoder, WriteZ16LEncoder, WriteZ24Encoder,
    WriteZ24Expand, WriteSwizzler, WriteSampleColor, WriteColorToIntensity, WriteToBitDepth,
    WriteEncoderEnd, emit,
    TexDecoder_GetBlockWidthInTexels, TexDecoder_GetBlockHeightInTexels,
    GetEncodedSampleCount, IntLog2, intLog2Fuel, EFB_WIDTH, EFB_HEIGHT,
    cNot, dFmt, uFmt, String.length_append]
  decide

set_option maxRecDepth 8000 in
set_option maxHeartbeats 1000000 in
theorem c1_len_RGBA8 : (GenerateEncodingShader GX_TF_RGBA8 false).text.length = 1329 := by
  simp [GenerateEncodingShader, GX_TF_I4, GX_TF_I8, GX_TF_IA4, GX_TF_IA8, GX_TF_RGB565,
    GX_TF_RGB5A3, GX_TF_RGBA8, GX_TF_Z8, GX_TF_Z16, GX_TF_Z24X8, GX_CTF_R4, GX_CTF_RA4,
    GX_CTF_RA8, GX_CTF_A8, GX_CTF_R8, GX_CTF_G8, GX_CTF_B8, GX_CTF_RG8, GX_CTF_GB8,
    GX_CTF_Z4, GX_CTF_Z8M, GX_CTF_Z8L, GX_CTF_Z16L,
    WriteI4Encoder, WriteI8Encoder, WriteIA4Encoder, WriteIA8Encoder, WriteRGB565Encoder,
    WriteRGB5A3Encoder, WriteRGBA8Encoder, WriteC4Encoder, WriteC8Encoder, WriteCC4Encoder,
    WriteCC8Encoder, WriteZ8Encoder, WriteZ16Encoder, WriteZ16LEncoder, WriteZ24Encoder,
    WriteZ24Expand, WriteSwizzler, WriteSampleColor, WriteColorToIntensity, WriteToBitDepth,
    WriteEncoderEnd, emit,
    TexDecoder_GetBlockWidthInTexels, TexDecoder_GetBlockHeightInTexels,
    GetEncodedSampleCount, IntLog2, intLog2Fuel, EFB_WIDTH, EFB_HEIGHT,
    cNot, dFmt, uFmt, String.length_append]
  decide

set_option maxRecDepth 8000 in
set_option maxHeartbeats 1000000 in
theorem c1_len_CTF_R4 : (GenerateEncodingShader GX_CTF_R4 false).text.length = 1514 := by
  simp [GenerateEncodingShader, GX_TF_I4, GX_TF_I8, GX_TF_IA4, GX_TF_IA8, GX_TF_RGB565,
    GX_TF_RGB5A3, GX_TF_RGBA8, GX_TF_Z8, GX_TF_Z16, GX_TF_Z24X8, GX_CTF_R4, GX_CTF_RA4,
    GX_CTF_RA8, GX_CTF_A8, GX_CTF_R8, GX_CTF_G8, GX_CTF_B8, GX_CTF_RG8, GX_CTF_GB8,
    GX_CTF_Z4, GX_CTF_Z8M, GX_CTF_Z8L, GX_CTF_Z16L,
    WriteI4Encoder, WriteI8Encoder, WriteIA4Encoder, WriteIA8Encoder, WriteRGB565Encoder,
    WriteRGB5A3Encoder, WriteRGBA8Encoder, WriteC4Encoder, WriteC8Encoder, WriteCC4Encoder,
    WriteCC8Encoder, WriteZ8Encoder, WriteZ16Encoder, WriteZ16LEncoder, WriteZ24Encoder,
    WriteZ24Expand, WriteSwizzler, WriteSampleColor, WriteColorToIntensity, WriteToBitDepth,
    WriteEncoderEnd, emit,
    TexDecoder_GetBlockWidthInTexels, TexDecoder_GetBlockHeightInTexels,
    GetEncodedSampleCount, IntLog2, intLog2Fuel, EFB_WIDTH, EFB_HEIGHT,
    cNot, dFmt, uFmt, String.length_append]
  decide

set_option maxRecDepth 8000 in
set_option maxHeartbeats 1000000 in
theorem c1_len_CTF_RA4 : (GenerateEncodingShader GX_CTF_RA4 false).text.length = 1482 := by
  simp [GenerateEncodingShader, GX_TF_I4, GX_TF_I8, GX_TF_IA4, GX_TF_IA8, GX_TF_RGB565,
    GX_TF_RGB5A3, GX_TF_RGBA8, GX_TF_Z8, GX_TF_Z16, GX_TF_Z24X8, GX_CTF_R4, GX_CTF_RA4,
    GX_CTF_RA8, GX_CTF_A8, GX_CTF_R8, GX_CTF_G8, GX_CTF_B8, GX_CTF_RG8, GX_CTF_GB8,
    GX_CTF_Z4, GX_CTF_Z8M, GX_CTF_Z8L, GX_CTF_Z16L,
    WriteI4Encoder, WriteI8Encoder, WriteIA4Encoder, WriteIA8Encoder, WriteRGB565Encoder,
    WriteRGB5A3Encoder, WriteRGBA8Encoder, WriteC4Encoder, WriteC8Encoder, WriteCC4Encoder,
    WriteCC8Encoder, WriteZ8Encoder, WriteZ16Encoder, WriteZ16LEncoder, WriteZ24Encoder,
    WriteZ24Expand, WriteSwizzler, WriteSampleColor, WriteColorToIntensity, WriteToBitDepth,
    WriteEncoderEnd, emit,
    TexDecoder_GetBlockWidthInTexels, TexDecoder_GetBlockHeightInTexels,
    GetEncodedSampleCount, IntLog2, intLog2Fuel, EFB_WIDTH, EFB_HEIGHT,
    cNot, dFmt, uFmt, String.length_append]
  decide

set_option maxRecDepth 8000 in
set_option maxHeartbeats 1000000 in
theorem c1_len_CTF_RA8 : (GenerateEncodingShader GX_CTF_RA8 false).text.length = 932 := by
  simp [GenerateEncodingShader, GX_TF_I4, GX_TF_I8, GX_TF_IA4, GX_TF_IA8, GX_TF_RGB565,
    GX_TF_RGB5A3, GX_TF_RGBA8, GX_TF_Z8, GX_TF_Z16, GX_TF_Z24X8, GX_CTF_R4, GX_CTF_RA4,
    GX_CTF_RA8, GX_CTF_A8, GX_CTF_R8, GX_CTF_G8, GX_CTF_B8, GX_CTF_RG8, GX_CTF_GB8,
    GX_CTF_Z4, GX_CTF_Z8M, GX_CTF_Z8L, GX_CTF_Z16L,
    WriteI4Encoder, WriteI8Encoder, WriteIA4Encoder, WriteIA8Encoder, WriteRGB565Encoder,
    WriteRGB5A3Encoder, WriteRGBA8Encoder, WriteC4Encoder, WriteC8Encoder, WriteCC4Encoder,
    WriteCC8Encoder, WriteZ8Encoder, WriteZ16Encoder, WriteZ16LEncoder, WriteZ24Encoder,
    WriteZ24Expand, WriteSwizzler, WriteSampleColor, WriteColorToIntensity, WriteToBitDepth,
    WriteEncoderEnd, emit,
    TexDecoder_GetBlockWidthInTexels, TexDecoder_GetBlockHeightInTexels,
    GetEncodedSampleCount, IntLog2, intLog2Fuel, EFB_WIDTH, EFB_HEIGHT,
    cNot, dFmt, uFmt, String.length_append]
  decide

set_option maxRecDepth 8000 in
set_option maxHeartbeats 1000000 in
theorem c1_len_CTF_A8 : (GenerateEncodingShader GX_CTF_A8 false).text.length = 1060 := by
  simp [GenerateEncodingShader, GX_TF_I4, GX_TF_I8, GX_TF_IA4, GX_TF_IA8, GX_TF_RGB565,
    GX_TF_RGB5A3, GX_TF_RGBA8, GX_TF_Z8, GX_TF_Z16, GX_TF_Z24X8, GX_CTF_R4, GX_CTF_RA4,
    GX_CTF_RA8, GX_CTF_A8, GX_CTF_R8, GX_CTF_G8, GX_CTF_B8, GX_CTF_RG8, GX_CTF_GB8,
    GX_CTF_Z4, GX_CTF_Z8M, GX_CTF_Z8L, GX_CTF_Z16L,
    WriteI4Encoder, WriteI8Encoder, WriteIA4Encoder, WriteIA8Encoder, WriteRGB565Encoder,
    WriteRGB5A3Encoder, WriteRGBA8Encoder, WriteC4Encoder, WriteC8Encoder, WriteCC4Encoder,
    WriteCC8Encoder, WriteZ8Encoder, WriteZ16Encoder, WriteZ16LEncoder, WriteZ24Encoder,
    WriteZ24Expand, WriteSwizzler, WriteSampleColor, WriteColorToIntensity, WriteToBitDepth,
    WriteEncoderEnd, emit,
    TexDecoder_GetBlockWidthInTexels, TexDecoder_GetBlockHeightInTexels,
    GetEncodedSampleCount, IntLog2, intLog2Fuel, EFB_WIDTH, EFB_HEIGHT,
    cNot, dFmt, uFmt, String.length_append]
  decide

set_option maxRecDepth 8000 in
set_option maxHeartbeats 1000000 in
theorem c1_len_CTF_R8 : (GenerateEncodingShader GX_CTF_R8 false).text.length = 1060 := by
  simp [GenerateEncodingShader, GX_TF_I4, GX_TF_I8, GX_TF_IA4, GX_TF_IA8, GX_TF_RGB565,
    GX_TF_RGB5A3, GX_TF_RGBA8, GX_TF_Z8, GX_TF_Z16, GX_TF_Z24X8, GX_CTF_R4, GX_CTF_RA4,
    GX_CTF_RA8, GX_CTF_A8, GX_CTF_R8, GX_CTF_G8, GX_CTF_B8, GX_CTF_RG8, GX_CTF_GB8,
    GX_CTF_Z4, GX_CTF_Z8M, GX_CTF_Z8L, GX_CTF_Z16L,
    WriteI4Encoder, WriteI8Encoder, WriteIA4Encoder, WriteIA8Encoder, WriteRGB565Encoder,
    WriteRGB5A3Encoder, WriteRGBA8Encoder, WriteC4Encoder, WriteC8Encoder, WriteCC4Encoder,
    WriteCC8Encoder, WriteZ8Encoder, WriteZ16Encoder, WriteZ16LEncoder, WriteZ24Encoder,
    WriteZ24Expand, WriteSwizzler, WriteSampleColor, WriteColorToIntensity, WriteToBitDepth,
    WriteEncoderEnd, emit,
    TexDecoder_GetBlockWidthInTexels, TexDecoder_GetBlockHeightInTexels,
    GetEncodedSampleCount, IntLog2, intLog2Fuel, EFB_WIDTH, EFB_HEIGHT,
    cNot, dFmt, uFmt, String.length_append]
  decide

set_option maxRecDepth 8000 in
set_option maxHeartbeats 1000000 in
theorem c1_len_CTF_G8 : (GenerateEncodingShader GX_CTF_G8 false).text.length = 1060 := by
  simp [GenerateEncodingShader, GX_TF_I4, GX_TF_I8, GX_TF_IA4, GX_TF_IA8, GX_TF_RGB565,
    GX_TF_RGB5A3, GX_TF_RGBA8, GX_TF_Z8, GX_TF_Z16, GX_TF_Z24X8, GX_CTF_R4, GX_CTF_RA4,
    GX_CTF_RA8, GX_CTF_A8, GX_CTF_R8, GX_CTF_G8, GX_CTF_B8, GX_CTF_RG8, GX_CTF_GB8,
    GX_CTF_Z4, GX_CTF_Z8M, GX_CTF_Z8L, GX_CTF_Z16L,
    WriteI4Encoder, WriteI8Encoder, WriteIA4Encoder, WriteIA8Encoder, WriteRGB565Encoder,
    WriteRGB5A3Encoder, WriteRGBA8Encoder, WriteC4Encoder, WriteC8Encoder, WriteCC4Encoder,
    WriteCC8Encoder, WriteZ8Encoder, WriteZ16Encoder, WriteZ16LEncoder, WriteZ24Encoder,
    WriteZ24Expand, WriteSwizzler, WriteSampleColor, WriteColorToIntensity, WriteToBitDepth,
    WriteEncoderEnd, emit,
    TexDecoder_GetBlockWidthInTexels, TexDecoder_GetBlockHeightInTexels,
    GetEncodedSampleCount, IntLog2, intLog2Fuel, EFB_WIDTH, EFB_HEIGHT,
    cNot, dFmt, uFmt, String.length_append]
  decide

set_option maxRecDepth 8000 in
set_option maxHeartbeats 1000000 in
theorem c1_len_CTF_B8 : (GenerateEncodingShader GX_CTF_B8 false).text.length = 1060 := by
  simp [GenerateEncodingShader, GX_TF_I4, GX_TF_I8, GX_TF_IA4, GX_TF_IA8, GX_TF_RGB565,
    GX_TF_RGB5A3, GX_TF_RGBA8, GX_TF_Z8, GX_TF_Z16, GX_TF_Z24X8, GX_CTF_R4, GX_CTF_RA4,
    GX_CTF_RA8, GX_CTF_A8, GX_CTF_R8, GX_CTF_G8, GX_CTF_B8, GX_CTF_RG8, GX_CTF_GB8,
    GX_CTF_Z4, GX_CTF_Z8M, GX_CTF_Z8L, GX_CTF_Z16L,
    WriteI4Encoder, WriteI8Encoder, WriteIA4Encoder, WriteIA8Encoder, WriteRGB565Encoder,
    WriteRGB5A3Encoder, WriteRGBA8Encoder, WriteC4Encoder, WriteC8Encoder, WriteCC4Encoder,
    WriteCC8Encoder, WriteZ8Encoder, WriteZ16Encoder, WriteZ16LEncoder, WriteZ24Encoder,
    WriteZ24Expand, WriteSwizzler, WriteSampleColor, WriteColorToIntensity, WriteToBitDepth,
    WriteEncoderEnd, emit,
    TexDecoder_GetBlockWidthInTexels, TexDecoder_GetBlockHeightInTexels,
    GetEncodedSampleCount, IntLog2, intLog2Fuel, EFB_WIDTH, EFB_HEIGHT,
    cNot, dFmt, uFmt, String.length_append]
  decide

set_option maxRecDepth 8000 in
set_option maxHeartbeats 1000000 in
theorem c1_len_CTF_RG8 : (GenerateEncodingShader GX_CTF_RG8 false).text.length = 932 := by
  simp [GenerateEncodingShader, GX_TF_I4, GX_TF_I8, GX_TF_IA4, GX_TF_IA8, GX_TF_RGB565,
    GX_TF_RGB5A3, GX_TF_RGBA8, GX_TF_Z8, GX_TF_Z16, GX_TF_Z24X8, GX_CTF_R4, GX_CTF_RA4,
    GX_CTF_RA8, GX_CTF_A8, GX_CTF_R8, GX_CTF_G8, GX_CTF_B8, GX_CTF_RG8, GX_CTF_GB8,
    GX_CTF_Z4, GX_CTF_Z8M, GX_CTF_Z8L, GX_CTF_Z16L,
    WriteI4Encoder, WriteI8Encoder, WriteIA4Encoder, WriteIA8Encoder, WriteRGB565Encoder,
    WriteRGB5A3Encoder, WriteRGBA8Encoder, WriteC4Encoder, WriteC8Encoder, WriteCC4Encoder,
    WriteCC8Encoder, WriteZ8Encoder, WriteZ16Encoder, WriteZ16LEncoder, WriteZ24Encoder,
    WriteZ24Expand, WriteSwizzler, WriteSampleColor, WriteColorToIntensity, WriteToBitDepth,
    WriteEncoderEnd, emit,
    TexDecoder_GetBlockWidthInTexels, TexDecoder_GetBlockHeightInTexels,
    GetEncodedSampleCount, IntLog2, intLog2Fuel, EFB_WIDTH, EFB_HEIGHT,
    cNot, dFmt, uFmt, String.length_append]
  decide

set_option maxRecDepth 8000 in
set_option maxHeartbeats 1000000 in
theorem c1_len_CTF_GB8 : (GenerateEncodingShader GX_CTF_GB8 false).text.length = 932 := by
  simp [GenerateEncodingShader, GX_TF_I4, GX_TF_I8, GX_TF_IA4, GX_TF_IA8, GX_TF_RGB565,
    GX_TF_RGB5A3, GX_TF_RGBA8, GX_TF_Z8, GX_TF_Z16, GX_TF_Z24X8, GX_CTF_R4, GX_CTF_RA4,
    GX_CTF_RA8, GX_CTF_A8, GX_CTF_R8, GX_CTF_G8, GX_CTF_B8, GX_CTF_RG8, GX_CTF_GB8,
    GX_CTF_Z4, GX_CTF_Z8M, GX_CTF_Z8L, GX_CTF_Z16L,
    WriteI4Encoder, WriteI8Encoder, WriteIA4Encoder, WriteIA8Encoder, WriteRGB565Encoder,
    WriteRGB5A3Encoder, WriteRGBA8Encoder, WriteC4Encoder, WriteC8Encoder, WriteCC4Encoder,
    WriteCC8Encoder, WriteZ8Encoder, WriteZ16Encoder, WriteZ16LEncoder, WriteZ24Encoder,
    WriteZ24Expand, WriteSwizzler, WriteSampleColor, WriteColorToIntensity, WriteToBitDepth,
    WriteEncoderEnd, emit,
    TexDecoder_GetBlockWidthInTexels, TexDecoder_GetBlockHeightInTexels,
    GetEncodedSampleCount, IntLog2, intLog2Fuel, EFB_WIDTH, EFB_HEIGHT,
    cNot, dFmt, uFmt, String.length_append]
  decide

set_option maxRecDepth 8000 in
set_option maxHeartbeats 1000000 in
theorem c1_len_Z8 : (GenerateEncodingShader GX_TF_Z8 false).text.length = 1060 := by
  simp [GenerateEncodingShader, GX_TF_I4, GX_TF_I8, GX_TF_IA4, GX_TF_IA8, GX_TF_RGB565,
    GX_TF_RGB5A3, GX_TF_RGBA8, GX_TF_Z8, GX_TF_Z16, GX_TF_Z24X8, GX_CTF_R4, GX_CTF_RA4,
    GX_CTF_RA8, GX_CTF_A8, GX_CTF_R8, GX_CTF_G8, GX_CTF_B8, GX_CTF_RG8, GX_CTF_GB8,
    GX_CTF_Z4, GX_CTF_Z8M, GX_CTF_Z8L, GX_CTF_Z16L,
    WriteI4Encoder, WriteI8Encoder, WriteIA4Encoder, WriteIA8Encoder, WriteRGB565Encoder,
    WriteRGB5A3Encoder, WriteRGBA8Encoder, WriteC4Encoder, WriteC8Encoder, WriteCC4Encoder,
    WriteCC8Encoder, WriteZ8Encoder, WriteZ16Encoder, WriteZ16LEncoder, WriteZ24Encoder,
    WriteZ24Expand, WriteSwizzler, WriteSampleColor, WriteColorToIntensity, WriteToBitDepth,
    WriteEncoderEnd, emit,
    TexDecoder_GetBlockWidthInTexels, TexDecoder_GetBlockHeightInTexels,
    GetEncodedSampleCount, IntLog2, intLog2Fuel, EFB_WIDTH, EFB_HEIGHT,
    cNot, dFmt, uFmt, String.length_append]
  decide

set_option maxRecDepth 8000 in
set_option maxHeartbeats 1000000 in
theorem c1_len_Z16 : (GenerateEncodingShader GX_TF_Z16 false).text.length = 1378 := by
  simp [GenerateEncodingShader, GX_TF_I4, GX_TF_I8, GX_TF_IA4, GX_TF_IA8, GX_TF_RGB565,
    GX_TF_RGB5A3, GX_TF_RGBA8, GX_TF_Z8, GX_TF_Z16, GX_TF_Z24X8, GX_CTF_R4, GX_CTF_RA4,
    GX_CTF_RA8, GX_CTF_A8, GX_CTF_R8, GX_CTF_G8, GX_CTF_B8, GX_CTF_RG8, GX_CTF_GB8,
    GX_CTF_Z4, GX_CTF_Z8M, GX_CTF_Z8L, GX_CTF_Z16L,
    WriteI4Encoder, WriteI8Encoder, WriteIA4Encoder, WriteIA8Encoder, WriteRGB565Encoder,
    WriteRGB5A3Encoder, WriteRGBA8Encoder, WriteC4Encoder, WriteC8Encoder, WriteCC4Encoder,
    WriteCC8Encoder, WriteZ8Encoder, WriteZ16Encoder, WriteZ16LEncoder, WriteZ24Encoder,
    WriteZ24Expand, WriteSwizzler, WriteSampleColor, WriteColorToIntensity, WriteToBitDepth,
    WriteEncoderEnd, emit,
    TexDecoder_GetBlockWidthInTexels, TexDecoder_GetBlockHeightInTexels,
    GetEncodedSampleCount, IntLog2, intLog2Fuel, EFB_WIDTH, EFB_HEIGHT,
    cNot, dFmt, uFmt, String.length_append]
  decide

set_option maxRecDepth 8000 in
set_option maxHeartbeats 1000000 in
theorem c1_len_Z24X8 : (GenerateEncodingShader GX_TF_Z24X8 false).text.length = 1799 := by
  simp [GenerateEncodingShader, GX_TF_I4, GX_TF_I8, GX_TF_IA4, GX_TF_IA8, GX_TF_RGB565,
    GX_TF_RGB5A3, GX_TF_RGBA8, GX_TF_Z8, GX_TF_Z16, GX_TF_Z24X8, GX_CTF_R4, GX_CTF_RA4,
    GX_CTF_RA8, GX_CTF_A8, GX_CTF_R8, GX_CTF_G8, GX_CTF_B8, GX_CTF_RG8, GX_CTF_GB8,
    GX_CTF_Z4, GX_CTF_Z8M, GX_CTF_Z8L, GX_CTF_Z16L,
    WriteI4Encoder, WriteI8Encoder, WriteIA4Encoder, WriteIA8Encoder, WriteRGB565Encoder,
    WriteRGB5A3Encoder, WriteRGBA8Encoder, WriteC4Encoder, WriteC8Encoder, WriteCC4Encoder,
    WriteCC8Encoder, WriteZ8Encoder, WriteZ16Encoder, WriteZ16LEncoder, WriteZ24Encoder,
    WriteZ24Expand, WriteSwizzler, WriteSampleColor, WriteColorToIntensity, WriteToBitDepth,
    WriteEncoderEnd, emit,
    TexDecoder_GetBlockWidthInTexels, TexDecoder_GetBlockHeightInTexels,
    GetEncodedSampleCount, IntLog2, intLog2Fuel, EFB_WIDTH, EFB_HEIGHT,
    cNot, dFmt, uFmt, String.length_append]
  decide

set_option maxRecDepth 8000 in
set_option maxHeartbeats 1000000 in
theorem c1_len_CTF_Z4 : (GenerateEncodingShader GX_CTF_Z4 false).text.length = 1514 := by
  simp [GenerateEncodingShader, GX_TF_I4, GX_TF_I8, GX_TF_IA4, GX_TF_IA8, GX_TF_RGB565,
    GX_TF_RGB5A3, GX_TF_RGBA8, GX_TF_Z8, GX_TF_Z16, GX_TF_Z24X8, GX_CTF_R4, GX_CTF_RA4,
    GX_CTF_RA8, GX_CTF_A8, GX_CTF_R8, GX_CTF_G8, GX_CTF_B8, GX_CTF_RG8, GX_CTF_GB8,
    GX_CTF_Z4, GX_CTF_Z8M, GX_CTF_Z8L, GX_CTF_Z16L,
    WriteI4Encoder, WriteI8Encoder, WriteIA4Encoder, WriteIA8Encoder, WriteRGB565Encoder,
    WriteRGB5A3Encoder, WriteRGBA8Encoder, WriteC4Encoder, WriteC8Encoder, WriteCC4Encoder,
    WriteCC8Encoder, WriteZ8Encoder, WriteZ16Encoder, WriteZ16LEncoder, WriteZ24Encoder,
    WriteZ24Expand, WriteSwizzler, WriteSampleColor, WriteColorToIntensity, WriteToBitDepth,
    WriteEncoderEnd, emit,
    TexDecoder_GetBlockWidthInTexels, TexDecoder_GetBlockHeightInTexels,
    GetEncodedSampleCount, IntLog2, intLog2Fuel, EFB_WIDTH, EFB_HEIGHT,
    cNot, dFmt, uFmt, String.length_append]
  decide

set_option maxRecDepth 8000 in
set_option maxHeartbeats 1000000 in
theorem c1_len_CTF_Z8M : (GenerateEncodingShader GX_CTF_Z8M false).text.length = 1190 := by
  simp [GenerateEncodingShader, GX_TF_I4, GX_TF_I8, GX_TF_IA4, GX_TF_IA8, GX_TF_RGB565,
    GX_TF_RGB5A3, GX_TF_RGBA8, GX_TF_Z8, GX_TF_Z16, GX_TF_Z24X8, GX_CTF_R4, GX_CTF_RA4,
    GX_CTF_RA8, GX_CTF_A8, GX_CTF_R8, GX_CTF_G8, GX_CTF_B8, GX_CTF_RG8, GX_CTF_GB8,
    GX_CTF_Z4, GX_CTF_Z8M, GX_CTF_Z8L, GX_CTF_Z16L,
    WriteI4Encoder, WriteI8Encoder, WriteIA4Encoder, WriteIA8Encoder, WriteRGB565Encoder,
    WriteRGB5A3Encoder, WriteRGBA8Encoder, WriteC4Encoder, WriteC8Encoder, WriteCC4Encoder,
    WriteCC8Encoder, WriteZ8Encoder, WriteZ16Encoder, WriteZ16LEncoder, WriteZ24Encoder,
    WriteZ24Expand, WriteSwizzler, WriteSampleColor, WriteColorToIntensity, WriteToBitDepth,
    WriteEncoderEnd, emit,
    TexDecoder_GetBlockWidthInTexels, TexDecoder_GetBlockHeightInTexels,
    GetEncodedSampleCount, IntLog2, intLog2Fuel, EFB_WIDTH, EFB_HEIGHT,
    cNot, dFmt, uFmt, String.length_append]
  decide

set_option maxRecDepth 8000 in
set_option maxHeartbeats 1000000 in
theorem c1_len_CTF_Z8L : (GenerateEncodingShader GX_CTF_Z8L false).text.length = 1198 := by
  simp [GenerateEncodingShader, GX_TF_I4, GX_TF_I8, GX_TF_IA4, GX_TF_IA8, GX_TF_RGB565,
    GX_TF_RGB5A3, GX_TF_RGBA8, GX_TF_Z8, GX_TF_Z16, GX_TF_Z24X8, GX_CTF_R4, GX_CTF_RA4,
    GX_CTF_RA8, GX_CTF_A8, GX_CTF_R8, GX_CTF_G8, GX_CTF_B8, GX_CTF_RG8, GX_CTF_GB8,
    GX_CTF_Z4, GX_CTF_Z8M, GX_CTF_Z8L, GX_CTF_Z16L,
    WriteI4Encoder, WriteI8Encoder, WriteIA4Encoder, WriteIA8Encoder, WriteRGB565Encoder,
    WriteRGB5A3Encoder, WriteRGBA8Encoder, WriteC4Encoder, WriteC8Encoder, WriteCC4Encoder,
    WriteCC8Encoder, WriteZ8Encoder, WriteZ16Encoder, WriteZ16LEncoder, WriteZ24Encoder,
    WriteZ24Expand, WriteSwizzler, WriteSampleColor, WriteColorToIntensity, WriteToBitDepth,
    WriteEncoderEnd, emit,
    TexDecoder_GetBlockWidthInTexels, TexDecoder_GetBlockHeightInTexels,
    GetEncodedSampleCount, IntLog2, intLog2Fuel, EFB_WIDTH, EFB_HEIGHT,
    cNot, dFmt, uFmt, String.length_append]
  decide

set_option maxRecDepth 8000 in
set_option maxHeartbeats 1000000 in
theorem c1_len_CTF_Z16L : (GenerateEncodingShader GX_CTF_Z16L false).text.length = 1484 := by
  simp [GenerateEncodingShader, GX_TF_I4, GX_TF_I8, GX_TF_IA4, GX_TF_IA8, GX_TF_RGB565,
    GX_TF_RGB5A3, GX_TF_RGBA8, GX_TF_Z8, GX_TF_Z16, GX_TF_Z24X8, GX_CTF_R4, GX_CTF_RA4,
    GX_CTF_RA8, GX_CTF_A8, GX_CTF_R8, GX_CTF_G8, GX_CTF_B8, GX_CTF_RG8, GX_CTF_GB8,
    GX_CTF_Z4, GX_CTF_Z8M, GX_CTF_Z8L, GX_CTF_Z16L,
    WriteI4Encoder, WriteI8Encoder, WriteIA4Encoder, WriteIA8Encoder, WriteRGB565Encoder,
    WriteRGB5A3Encoder, WriteRGBA8Encoder, WriteC4Encoder, WriteC8Encoder, WriteCC4Encoder,
    WriteCC8Encoder, WriteZ8Encoder, WriteZ16Encoder, WriteZ16LEncoder, WriteZ24Encoder,
    WriteZ24Expand, WriteSwizzler, WriteSampleColor, WriteColorToIntensity, WriteToBitDepth,
    WriteEncoderEnd, emit,
    TexDecoder_GetBlockWidthInTexels, TexDecoder_GetBlockHeightInTexels,
    GetEncodedSampleCount, IntLog2, intLog2Fuel, EFB_WIDTH, EFB_HEIGHT,
    cNot, dFmt, uFmt, String.length_append]
  decide

/-- Claim C1, counterexample to the stated format count: the closed
enumeration handled by `GenerateEncodingShader` has 23 members, not 24. -/
theorem C1_format_count_counterexample :
    supportedFormatCodes.length = 23 ∧ supportedFormatCodes.length ≠ 24 := by
  constructor
  · rfl
  · decide

/-- Claim C1 (amended: the closed enumeration has 23 formats): for every
format identifier handled by `GenerateEncodingShader`, the call raises no
alert and produces non-empty text whose NUL terminator lands strictly
before the last byte of the 16KiB buffer, so the canary byte written at
index 16383 before generation is untouched. -/
theorem C1_encoder_fits_buffer (f : Nat) (hf : f ∈ supportedFormatCodes) :
    (GenerateEncodingShader f false).alert = false ∧
    0 < (GenerateEncodingShader f false).text.length ∧
    (GenerateEncodingShader f false).text.length + 1 < encoderBufferSize := by
  simp only [supportedFormatCodes, List.mem_cons, List.not_mem_nil, or_false] at hf
  rcases hf with rfl | rfl | rfl | rfl | rfl | rfl | rfl | rfl | rfl | rfl | rfl | rfl |
    rfl | rfl | rfl | rfl | rfl | rfl | rfl | rfl | rfl | rfl | rfl
  · exact ⟨rfl, by rw [c1_len_I4]; decide, by rw [c1_len_I4]; decide⟩
  · exact ⟨rfl, by rw [c1_len_I8]; decide, by rw [c1_len_I8]; decide⟩
  · exact ⟨rfl, by rw [c1_len_IA4]; decide, by rw [c1_len_IA4]; decide⟩
  · exact ⟨rfl, by rw [c1_len_IA8]; decide, by rw [c1_len_IA8]; decide⟩
  · exact ⟨rfl, by rw [c1_len_RGB565]; decide, by rw [c1_len_RGB565]; decide⟩
  · exact ⟨rfl, by rw [c1_len_RGB5A3]; decide, by rw [c1_len_RGB5A3]; decide⟩
  · exact ⟨rfl, by rw [c1_len_RGBA8]; decide, by rw [c1_len_RGBA8]; decide⟩
  · exact ⟨rfl, by rw [c1_len_CTF_R4]; decide, by rw [c1_len_CTF_R4]; decide⟩
  · exact ⟨rfl, by rw [c1_len_CTF_RA4]; decide, by rw [c1_len_CTF_RA4]; decide⟩
  · exact ⟨rfl, by rw [c1_len_CTF_RA8]; decide, by rw [c1_len_CTF_RA8]; decide⟩
  · exact ⟨rfl, by rw [c1_len_CTF_A8]; decide, by rw [c1_len_CTF_A8]; decide⟩
  · exact ⟨rfl, by rw [c1_len_CTF_R8]; decide, by rw [c1_len_CTF_R8]; decide⟩
  · exact ⟨rfl, by rw [c1_len_CTF_G8]; decide, by rw [c1_len_CTF_G8]; decide⟩
  · exact ⟨rfl, by rw [c1_len_CTF_B8]; decide, by rw [c1_len_CTF_B8]; decide⟩
  · exact ⟨rfl, by rw [c1_len_CTF_RG8]; decide, by rw [c1_len_CTF_RG8]; decide⟩
  · exact ⟨rfl, by rw [c1_len_CTF_GB8]; decide, by rw [c1_len_CTF_GB8]; decide⟩
  · exact ⟨rfl, by rw [c1_len_Z8]; decide, by rw [c1_len_Z8]; decide⟩
  · exact ⟨rfl, by rw [c1_len_Z16]; decide, by rw [c1_len_Z16]; decide⟩
  · exact ⟨rfl, by rw [c1_len_Z24X8]; decide, by rw [c1_len_Z24X8]; decide⟩
  · exact ⟨rfl, by rw [c1_len_CTF_Z4]; decide, by rw [c1_len_CTF_Z4]; decide⟩
  · exact ⟨rfl, by rw [c1_len_CTF_Z8M]; decide, by rw [c1_len_CTF_Z8M]; decide⟩
  · exact ⟨rfl, by rw [c1_len_CTF_Z8L]; decide, by rw [c1_len_CTF_Z8L]; decide⟩
  · exact ⟨rfl, by rw [c1_len_CTF_Z16L]; decide, by rw [c1_len_CTF_Z16L]; decide⟩

/-- Witness for C1 at the largest emitted format, RGB5A3. -/
theorem C1_encoder_fits_buffer_witness :
    GX_TF_RGB5A3 ∈ supportedFormatCodes ∧
    ((GenerateEncodingShader GX_TF_RGB5A3 false).alert = false ∧
     0 < (GenerateEncodingShader GX_TF_RGB5A3 false).text.length ∧
     (GenerateEncodingShader GX_TF_RGB5A3 false).text.length + 1 < encoderBufferSize) :=
  ⟨by decide, C1_encoder_fits_buffer GX_TF_RGB5A3 (by decide)⟩

/-! ## Claim C4 -/

set_option maxRecDepth 40000 in
theorem c4_flag_all :
    (supportedFormatCodes.all fun f => (GenerateEncodingShader f false).flagOut == false) = true := by
  rfl

set_option maxRecDepth 8000 in
set_option maxHeartbeats 1000000 in
theorem c4_text_I4 : (GenerateEncodingShader GX_TF_I4 false).text = goldenI4Text := by
  simp [GenerateEncodingShader, GX_TF_I4, GX_TF_I8, GX_TF_IA4, GX_TF_IA8, GX_TF_RGB565,
    GX_TF_RGB5A3, GX_TF_RGBA8, GX_TF_Z8, GX_TF_Z16, GX_TF_Z24X8, GX_CTF_R4, GX_CTF_RA4,
    GX_CTF_RA8, GX_CTF_A8, GX_CTF_R8, GX_CTF_G8, GX_CTF_B8, GX_CTF_RG8, GX_CTF_GB8,
    GX_CTF_Z4, GX_CTF_Z8M, GX_CTF_Z8L, GX_CTF_Z16L,
    WriteI4Encoder, WriteI8Encoder, WriteIA4Encoder, WriteIA8Encoder,
    WriteSwizzler, WriteSampleColor, WriteColorToIntensity, WriteToBitDepth,
    WriteEncoderEnd, emit,
    TexDecoder_GetBlockWidthInTexels, TexDecoder_GetBlockHeightInTexels,
    GetEncodedSampleCount, IntLog2, intLog2Fuel, EFB_WIDTH, EFB_HEIGHT,
    cNot, dFmt, uFmt,
    show toString (1 : Nat) = "1" from rfl, show toString (2 : Nat) = "2" from rfl,
    show toString (3 : Nat) = "3" from rfl, show toString (4 : Nat) = "4" from rfl,
    show toString (7 : Nat) = "7" from rfl, show toString (528 : Nat) = "528" from rfl,
    show toString (640 : Nat) = "640" from rfl,
    show toString (-8 : Int) = "-8" from rfl, show toString (-4 : Int) = "-4" from rfl,
    show toString (0 : Int) = "0" from rfl, show toString (1 : Int) = "1" from rfl,
    show toString (2 : Int) = "2" from rfl, show toString (3 : Int) = "3" from rfl,
    show toString (4 : Int) = "4" from rfl, show toString (5 : Int) = "5" from rfl,
    show toString (6 : Int) = "6" from rfl, show toString (7 : Int) = "7" from rfl, goldenI4Text]

set_option maxRecDepth 8000 in
theorem c4_count_I4 : countOcc intensityDeclLine goldenI4Text = 1 := by rfl

set_option maxRecDepth 8000 in
set_option maxHeartbeats 1000000 in
theorem c4_text_I8 : (GenerateEncodingShader GX_TF_I8 false).text = goldenI8Text := by
  simp [GenerateEncodingShader, GX_TF_I4, GX_TF_I8, GX_TF_IA4, GX_TF_IA8, GX_TF_RGB565,
    GX_TF_RGB5A3, GX_TF_RGBA8, GX_TF_Z8, GX_TF_Z16, GX_TF_Z24X8, GX_CTF_R4, GX_CTF_RA4,
    GX_CTF_RA8, GX_CTF_A8, GX_CTF_R8, GX_CTF_G8, GX_CTF_B8, GX_CTF_RG8, GX_CTF_GB8,
    GX_CTF_Z4, GX_CTF_Z8M, GX_CTF_Z8L, GX_CTF_Z16L,
    WriteI4Encoder, WriteI8Encoder, WriteIA4Encoder, WriteIA8Encoder,
    WriteSwizzler, WriteSampleColor, WriteColorToIntensity, WriteToBitDepth,
    WriteEncoderEnd, emit,
    TexDecoder_GetBlockWidthInTexels, TexDecoder_GetBlockHeightInTexels,
    GetEncodedSampleCount, IntLog2, intLog2Fuel, EFB_WIDTH, EFB_HEIGHT,
    cNot, dFmt, uFmt,
    show toString (1 : Nat) = "1" from rfl, show toString (2 : Nat) = "2" from rfl,
    show toString (3 : Nat) = "3" from rfl, show toString (4 : Nat) = "4" from rfl,
    show toString (7 : Nat) = "7" from rfl, show toString (528 : Nat) = "528" from rfl,
    show toString (640 : Nat) = "640" from rfl,
    show toString (-8 : Int) = "-8" from rfl, show toString (-4 : Int) = "-4" from rfl,
    show toString (0 : Int) = "0" from rfl, show toString (1 : Int) = "1" from rfl,
    show toString (2 : Int) = "2" from rfl, show toString (3 : Int) = "3" from rfl,
    show toString (4 : Int) = "4" from rfl, show toString (5 : Int) = "5" from rfl,
    show toString (6 : Int) = "6" from rfl, show toString (7 : Int) = "7" from rfl, goldenI8Text]

set_option maxRecDepth 8000 in
theorem c4_count_I8 : countOcc intensityDeclLine goldenI8Text = 1 := by rfl

set_option maxRecDepth 8000 in
set_option maxHeartbeats 1000000 in
theorem c4_text_IA4 : (GenerateEncodingShader GX_TF_IA4 false).text = goldenIA4Text := by
  simp [GenerateEncodingShader, GX_TF_I4, GX_TF_I8, GX_TF_IA4, GX_TF_IA8, GX_TF_RGB565,
    GX_TF_RGB5A3, GX_TF_RGBA8, GX_TF_Z8, GX_TF_Z16, GX_TF_Z24X8, GX_CTF_R4, GX_CTF_RA4,
    GX_CTF_RA8, GX_CTF_A8, GX_CTF_R8, GX_CTF_G8, GX_CTF_B8, GX_CTF_RG8, GX_CTF_GB8,
    GX_CTF_Z4, GX_CTF_Z8M, GX_CTF_Z8L, GX_CTF_Z16L,
    WriteI4Encoder, WriteI8Encoder, WriteIA4Encoder, WriteIA8Encoder,
    WriteSwizzler, WriteSampleColor, WriteColorToIntensity, WriteToBitDepth,
    WriteEncoderEnd, emit,
    TexDecoder_GetBlockWidthInTexels, TexDecoder_GetBlockHeightInTexels,
    GetEncodedSampleCount, IntLog2, intLog2Fuel, EFB_WIDTH, EFB_HEIGHT,
    cNot, dFmt, uFmt,
    show toString (1 : Nat) = "1" from rfl, show toString (2 : Nat) = "2" from rfl,
    show toString (3 : Nat) = "3" from rfl, show toString (4 : Nat) = "4" from rfl,
    show toString (7 : Nat) = "7" from rfl, show toString (528 : Nat) = "528" from rfl,
    show toString (640 : Nat) = "640" from rfl,
    show toString (-8 : Int) = "-8" from rfl, show toString (-4 : Int) = "-4" from rfl,
    show toString (0 : Int) = "0" from rfl, show toString (1 : Int) = "1" from rfl,
    show toString (2 : Int) = "2" from rfl, show toString (3 : Int) = "3" from rfl,
    show toString (4 : Int) = "4" from rfl, show toString (5 : Int) = "5" from rfl,
    show toString (6 : Int) = "6" from rfl, show toString (7 : Int) = "7" from rfl, goldenIA4Text]

set_option maxRecDepth 8000 in
theorem c4_count_IA4 : countOcc intensityDeclLine goldenIA4Text = 1 := by rfl

set_option maxRecDepth 8000 in
set_option maxHeartbeats 1000000 in
theorem c4_text_IA8 : (GenerateEncodingShader GX_TF_IA8 false).text = goldenIA8Text := by
  simp [GenerateEncodingShader, GX_TF_I4, GX_TF_I8, GX_TF_IA4, GX_TF_IA8, GX_TF_RGB565,
    GX_TF_RGB5A3, GX_TF_RGBA8, GX_TF_Z8, GX_TF_Z16, GX_TF_Z24X8, GX_CTF_R4, GX_CTF_RA4,
    GX_CTF_RA8, GX_CTF_A8, GX_CTF_R8, GX_CTF_G8, GX_CTF_B8, GX_CTF_RG8, GX_CTF_GB8,
    GX_CTF_Z4, GX_CTF_Z8M, GX_CTF_Z8L, GX_CTF_Z16L,
    WriteI4Encoder, WriteI8Encoder, WriteIA4Encoder, WriteIA8Encoder,
    WriteSwizzler, WriteSampleColor, WriteColorToIntensity, WriteToBitDepth,
    WriteEncoderEnd, emit,
    TexDecoder_GetBlockWidthInTexels, TexDecoder_GetBlockHeightInTexels,
    GetEncodedSampleCount, IntLog2, intLog2Fuel, EFB_WIDTH, EFB_HEIGHT,
    cNot, dFmt, uFmt,
    show toString (1 : Nat) = "1" from rfl, show toString (2 : Nat) = "2" from rfl,
    show toString (3 : Nat) = "3" from rfl, show toString (4 : Nat) = "4" from rfl,
    show toString (7 : Nat) = "7" from rfl, show toString (528 : Nat) = "528" from rfl,
    show toString (640 : Nat) = "640" from rfl,
    show toString (-8 : Int) = "-8" from rfl, show toString (-4 : Int) = "-4" from rfl,
    show toString (0 : Int) = "0" from rfl, show toString (1 : Int) = "1" from rfl,
    show toString (2 : Int) = "2" from rfl, show toString (3 : Int) = "3" from rfl,
    show toString (4 : Int) = "4" from rfl, show toString (5 : Int) = "5" from rfl,
    show toString (6 : Int) = "6" from rfl, show toString (7 : Int) = "7" from rfl, goldenIA8Text]

set_option maxRecDepth 8000 in
theorem c4_count_IA8 : countOcc intensityDeclLine goldenIA8Text = 1 := by rfl

theorem c4_count_intensity :
    ∀ B ∈ intensityFormatCodes,
      countOcc intensityDeclLine (GenerateEncodingShader B false).text = 1 := by
  intro B hB
  simp only [intensityFormatCodes, List.mem_cons, List.not_mem_nil, or_false] at hB
  rcases hB with rfl | rfl | rfl | rfl
  · rw [c4_text_I4]; exact c4_count_I4
  · rw [c4_text_I8]; exact c4_count_I8
  · rw [c4_text_IA4]; exact c4_count_IA4
  · rw [c4_text_IA8]; exact c4_count_IA8

/-- Claim C4: the "intensity constant already emitted" flag does not leak
across generator calls — after generating any supported format A the flag
is back to `false`, so a following generation of B starts from `false`,
ends at `false`, and (when B's encoder uses intensity conversion) B's text
declares `IntensityConst` exactly once, regardless of A. -/
theorem C4_intensity_flag_no_leak (A B : Nat) (hA : A ∈ supportedFormatCodes)
    (hB : B ∈ supportedFormatCodes) :
    (GenerateEncodingShader A false).flagOut = false ∧
    (GenerateEncodingShader B (GenerateEncodingShader A false).flagOut).flagOut = false ∧
    (B ∈ intensityFormatCodes →
      countOcc intensityDeclLine
        (GenerateEncodingShader B (GenerateEncodingShader A false).flagOut).text = 1) := by
  have hA' : (GenerateEncodingShader A false).flagOut = false := by
    have h := List.all_eq_true.mp c4_flag_all A hA
    simpa using h
  have hB' : (GenerateEncodingShader B false).flagOut = false := by
    have h := List.all_eq_true.mp c4_flag_all B hB
    simpa using h
  refine ⟨hA', ?_, ?_⟩
  · rw [hA']; exact hB'
  · intro hBint
    rw [hA']
    exact c4_count_intensity B hBint

/-- Witness for C4: generate RGB565 (no intensity), then I8 (intensity). -/
theorem C4_intensity_flag_no_leak_witness :
    GX_TF_RGB565 ∈ supportedFormatCodes ∧ GX_TF_I8 ∈ supportedFormatCodes ∧
    GX_TF_I8 ∈ intensityFormatCodes ∧
    ((GenerateEncodingShader GX_TF_RGB565 false).flagOut = false ∧
     (GenerateEncodingShader GX_TF_I8
        (GenerateEncodingShader GX_TF_RGB565 false).flagOut).flagOut = false ∧
     (GX_TF_I8 ∈ intensityFormatCodes →
       countOcc intensityDeclLine
         (GenerateEncodingShader GX_TF_I8
           (GenerateEncodingShader GX_TF_RGB565 false).flagOut).text = 1)) :=
  ⟨by decide, by decide, by decide,
   C4_intensity_flag_no_leak GX_TF_RGB565 GX_TF_I8 (by decide) (by decide)⟩

/-! ## Claim C5 -/

/-- Claim C5: for every format identifier outside the closed enumeration,
`GenerateEncodingShader` raises the user-visible alert and emits no shader
text in that call (and leaves the intensity flag untouched). -/
theorem C5_unknown_format_alert (format : Nat) (hf : format ∉ supportedFormatCodes)
    (flagIn : Bool) :
    GenerateEncodingShader format flagIn =
      { text := "", flagOut := flagIn, alert := true } := by
  simp only [supportedFormatCodes, List.mem_cons, List.not_mem_nil, or_false, not_or] at hf
  obtain ⟨h1, h2, h3, h4, h5, h6, h7, h8, h9, h10, h11, h12, h13, h14, h15, h16, h17,
    h18, h19, h20, h21, h22, h23⟩ := hf
  simp only [GenerateEncodingShader, if_neg h1, if_neg h2, if_neg h3, if_neg h4,
    if_neg h5, if_neg h6, if_neg h7, if_neg h8, if_neg h9, if_neg h10, if_neg h11,
    if_neg h12, if_neg h13, if_neg h14, if_neg h15, if_neg h16, if_neg h17,
    if_neg h18, if_neg h19, if_neg h20, if_neg h21, if_neg h22, if_neg h23]

/-- Witness for C5 at the unhandled format code 7 (`GX_TF_C4` territory). -/
theorem C5_unknown_format_alert_witness :
    7 ∉ supportedFormatCodes ∧
    GenerateEncodingShader 7 false = { text := "", flagOut := false, alert := true } :=
  ⟨by decide, C5_unknown_format_alert 7 (by decide) false⟩

/-! ## Claim C2 -/

theorem uploadNeededSize_eq_decl (o : ConfigurationOption) :
    uploadNeededSize o = declNeededSize o := by
  obtain ⟨t, bv, iv, fv⟩ := o
  cases t <;> rfl

/-- The two packing passes share one running-offset recurrence: equal final
sizes, and per entry the declared offset is the spec packing offset of the
pre-padding write offset, never crossing a 16-byte boundary. -/
theorem layout_rel (opts : List (String × ConfigurationOption)) :
    ∀ b : Nat, b + 32 * opts.length + 16 < 4294967296 →
      (∀ p ∈ opts, declNeededSize p.2 ≤ 16) →
      (BlitUploadLayoutAux b opts).2 = (LoadShaderOptionsLayoutAux b opts).2 ∧
      (∀ i p, opts.get? i = some p →
        ∃ u d, (BlitUploadLayoutAux b opts).1.get? i = some u ∧
          (LoadShaderOptionsLayoutAux b opts).1.get? i = some d ∧
          d = specPackOffset u (declNeededSize p.2) ∧
          d % 16 + declNeededSize p.2 ≤ 16) := by
  induction opts with
  | nil =>
    intro b _ _
    refine ⟨rfl, ?_⟩
    intro i p hp
    simp [LoadShaderOptionsLayoutAux] at hp
  | cons hd tl ih =>
    intro b hb hsz
    obtain ⟨name, o⟩ := hd
    have hsz0 : declNeededSize o ≤ 16 := hsz (name, o) (by simp)
    have hup : uploadNeededSize o = declNeededSize o := uploadNeededSize_eq_decl o
    have hrem : alignDown16u32 (b + 15) - b = (16 - b % 16) % 16 := by
      simp only [alignDown16u32]
      omega
    have hremle : alignDown16u32 (b + 15) - b ≤ 15 := by
      simp only [alignDown16u32]; omega
    set needed := declNeededSize o with hneed
    set remaining := alignDown16u32 (b + 15) - b with hremdef
    set start := if remaining < needed then b + remaining else b with hstart
    have hstep : BlitUploadLayoutAux b ((name, o) :: tl) =
        (b :: (BlitUploadLayoutAux (start + needed) tl).1,
         (BlitUploadLayoutAux (start + needed) tl).2) := by
      simp only [BlitUploadLayoutAux, hup]
    have hstepD : LoadShaderOptionsLayoutAux b ((name, o) :: tl) =
        (start :: (LoadShaderOptionsLayoutAux (start + needed) tl).1,
         (LoadShaderOptionsLayoutAux (start + needed) tl).2) := by
      simp only [LoadShaderOptionsLayoutAux]
    have hb' : (start + needed) + 32 * tl.length + 16 < 4294967296 := by
      have : start ≤ b + 15 := by
        rw [hstart]
        split <;> omega
      simp only [List.length_cons] at hb
      omega
    have hsz' : ∀ p ∈ tl, declNeededSize p.2 ≤ 16 := fun p hp => hsz p (by simp [hp])
    obtain ⟨ihfin, ihget⟩ := ih (start + needed) hb' hsz'
    constructor
    · rw [hstep, hstepD]
      exact ihfin
    · intro i p hp
      cases i with
      | zero =>
        simp only [List.get?_cons_zero, Option.some.injEq] at hp
        subst hp
        refine ⟨b, start, ?_, ?_, ?_, ?_⟩
        · rw [hstep]; rfl
        · rw [hstepD]; rfl
        · have hred : declNeededSize (name, o).2 = declNeededSize o := rfl
          rw [hred, hstart, specPackOffset]
          split_ifs <;> omega
        · have hred : declNeededSize (name, o).2 = declNeededSize o := rfl
          rw [hred, hstart]
          split_ifs <;> omega
      | succ j =>
        simp only [List.get?_cons_succ] at hp
        obtain ⟨u, d, h1, h2, h3, h4⟩ := ihget j p hp
        refine ⟨u, d, ?_, ?_, h3, h4⟩
        · rw [hstep]; simpa using h1
        · rw [hstepD]; simpa using h2

/-- Claim C2, counterexample: in the spec example `{bool a; floatVector(3)
b; int a2}` the 12-byte vector exactly fits the 12 bytes remaining at
offset 4 and stays at offset 4 (both in the declaration layout and the
upload), not at offset 16; and where nonzero padding does occur
(`{floatVector(3) a; floatVector(3) b}`) the uploaded value is written at
offset 12 while its declaration sits at offset 16 — not at the same
offset. -/
theorem C2_packing_counterexample :
    (LoadShaderOptionsLayoutAux 0 exampleOptionsC2).1.get? 1 = some 4 ∧
    (BlitUploadLayoutAux 0 exampleOptionsC2).1.get? 1 = some 4 ∧
    (LoadShaderOptionsLayoutAux 0 exampleOptionsC2).1.get? 1 ≠ some 16 ∧
    (LoadShaderOptionsLayoutAux 0 exampleOptionsPad).1.get? 1 = some 16 ∧
    (BlitUploadLayoutAux 0 exampleOptionsPad).1.get? 1 = some 12 := by
  decide

/-- Claim C2 (amended): both passes walk the options in the same stable
order with the same running byte offset and compute equal final sizes; the
declared entry offsets obey the 16-byte non-crossing packing rule
(modelled by `specPackOffset`); the uploaded value bytes, however, are
written at the offset reached *before* the padding adjustment, so they
coincide with the declared offset exactly when no nonzero padding is
needed; in the example `{bool a; floatVector(3) b; int a2}` the offsets
are 0, 4, 16 in both passes (the vector exactly fits at 4), while for
`{floatVector(3) a; floatVector(3) b}` the second vector is declared at 16
but written at 12. -/
theorem C2_packing_layout (opts : List (String × ConfigurationOption))
    (hb : 32 * opts.length + 16 < 4294967296)
    (hsz : ∀ p ∈ opts, declNeededSize p.2 ≤ 16) :
    ((BlitUploadLayoutAux 0 opts).2 = (LoadShaderOptionsLayoutAux 0 opts).2 ∧
     (∀ i p, opts.get? i = some p →
       ∃ u d, (BlitUploadLayoutAux 0 opts).1.get? i = some u ∧
         (LoadShaderOptionsLayoutAux 0 opts).1.get? i = some d ∧
         d = specPackOffset u (declNeededSize p.2) ∧
         d % 16 + declNeededSize p.2 ≤ 16)) ∧
    (LoadShaderOptionsLayoutAux 0 exampleOptionsC2).1 = [0, 4, 16] ∧
    (BlitUploadLayoutAux 0 exampleOptionsC2).1 = [0, 4, 16] ∧
    (LoadShaderOptionsLayoutAux 0 exampleOptionsPad).1 = [0, 16] ∧
    (BlitUploadLayoutAux 0 exampleOptionsPad).1 = [0, 12] := by
  refine ⟨layout_rel opts 0 (by omega) hsz, ?_, ?_, ?_, ?_⟩ <;> decide

/-- Witness for C2 at the spec's example option set. -/
theorem C2_packing_layout_witness :
    (32 * exampleOptionsC2.length + 16 < 4294967296) ∧
    (∀ p ∈ exampleOptionsC2, declNeededSize p.2 ≤ 16) ∧
    (((BlitUploadLayoutAux 0 exampleOptionsC2).2 =
        (LoadShaderOptionsLayoutAux 0 exampleOptionsC2).2 ∧
      (∀ i p, exampleOptionsC2.get? i = some p →
        ∃ u d, (BlitUploadLayoutAux 0 exampleOptionsC2).1.get? i = some u ∧
          (LoadShaderOptionsLayoutAux 0 exampleOptionsC2).1.get? i = some d ∧
          d = specPackOffset u (declNeededSize p.2) ∧
          d % 16 + declNeededSize p.2 ≤ 16)) ∧
     (LoadShaderOptionsLayoutAux 0 exampleOptionsC2).1 = [0, 4, 16] ∧
     (BlitUploadLayoutAux 0 exampleOptionsC2).1 = [0, 4, 16] ∧
     (LoadShaderOptionsLayoutAux 0 exampleOptionsPad).1 = [0, 16] ∧
     (BlitUploadLayoutAux 0 exampleOptionsPad).1 = [0, 12]) :=
  ⟨by decide, by decide,
   C2_packing_layout exampleOptionsC2 (by decide) (by decide)⟩

/-! ## Claims C6 and C10: intermediate-image bookkeeping -/

theorem sizeTSub1_eq (n : Nat) (h1 : 1 ≤ n) (h2 : n < 2 ^ 64) : sizeTSub1 n = n - 1 := by
  simp only [sizeTSub1]
  omega

theorem sizeTSub1_zero : sizeTSub1 0 = 2 ^ 64 - 1 := by
  simp only [sizeTSub1]
  omega

/-- When the reallocation guard fires, the draw reallocates: the flag is
true and afterwards exactly `finalstage` intermediate images exist. -/
theorem updateIntermediates_realloc (st : BlitCacheState) (stages : List Stage)
    (srcW srcH dstW dstH : Nat) (hfs : 0 < sizeTSub1 stages.length)
    (hc : st.m_prev_dst_width ≠ dstW ∨ st.m_prev_dst_height ≠ dstH ∨
      st.m_prev_src_width ≠ srcW ∨ st.m_prev_src_height ≠ srcH ∨
      st.m_stageOutput.length ≠ sizeTSub1 stages.length) :
    (updateIntermediates st stages srcW srcH dstW dstH).2 = true ∧
    (updateIntermediates st stages srcW srcH dstW dstH).1.m_stageOutput.length =
      sizeTSub1 stages.length := by
  simp only [updateIntermediates]
  rw [if_pos hfs, if_pos ⟨hfs, hc⟩]
  simp

/-- Claim C6: with `N ≥ 1` configured stages, a draw leaves exactly `N-1`
intermediate images (none when `N = 1`, where the bookkeeping is skipped
entirely); they are recreated — with dimensions
`(source-or-destination dimension × output scale)` truncated to pixels —
exactly when a source dimension, destination dimension or the stage count
differs from the cached previous values; otherwise the draw performs no
reallocation and leaves the cache untouched. -/
theorem C6_intermediate_images (st : BlitCacheState) (stages : List Stage)
    (srcW srcH dstW dstH : Nat) (hne : stages ≠ []) (hlen : stages.length < 2 ^ 64) :
    (stages.length = 1 → updateIntermediates st stages srcW srcH dstW dstH = (st, false)) ∧
    (2 ≤ stages.length →
      ((updateIntermediates st stages srcW srcH dstW dstH).1.m_stageOutput.length =
        stages.length - 1) ∧
      ((updateIntermediates st stages srcW srcH dstW dstH).2 = true ↔
        (st.m_prev_dst_width ≠ dstW ∨ st.m_prev_dst_height ≠ dstH ∨
         st.m_prev_src_width ≠ srcW ∨ st.m_prev_src_height ≠ srcH ∨
         st.m_stageOutput.length ≠ stages.length - 1)) ∧
      ((updateIntermediates st stages srcW srcH dstW dstH).2 = false →
        updateIntermediates st stages srcW srcH dstW dstH = (st, false)) ∧
      ((updateIntermediates st stages srcW srcH dstW dstH).2 = true →
        ∀ i, i < stages.length - 1 →
          (updateIntermediates st stages srcW srcH dstW dstH).1.m_stageOutput[i]? =
            some (mkStageImage (stages.getD i defaultStage) srcW srcH dstW dstH))) := by
  have hpos : 1 ≤ stages.length := List.length_pos.mpr hne
  have hfs : sizeTSub1 stages.length = stages.length - 1 := sizeTSub1_eq _ hpos hlen
  constructor
  · intro h1
    have h0 : sizeTSub1 stages.length = 0 := by rw [hfs, h1]
    simp [updateIntermediates, h0]
  · intro h2
    have hfspos : 0 < stages.length - 1 := by omega
    by_cases hc : st.m_prev_dst_width ≠ dstW ∨ st.m_prev_dst_height ≠ dstH ∨
        st.m_prev_src_width ≠ srcW ∨ st.m_prev_src_height ≠ srcH ∨
        st.m_stageOutput.length ≠ stages.length - 1
    · have hres : updateIntermediates st stages srcW srcH dstW dstH =
          ({ m_prev_dst_width := dstW, m_prev_dst_height := dstH,
             m_prev_src_width := srcW, m_prev_src_height := srcH,
             m_stageOutput := (List.range (stages.length - 1)).map fun i =>
               mkStageImage (stages.getD i defaultStage) srcW srcH dstW dstH }, true) := by
        simp only [updateIntermediates, hfs]
        rw [if_pos hfspos, if_pos ⟨hfspos, hc⟩]
      refine ⟨?_, ?_, ?_, ?_⟩
      · rw [hres]; simp
      · rw [hres]; simpa using hc
      · rw [hres]; simp
      · intro _ i hi
        rw [hres]
        simp [List.getElem?_map, List.getElem?_range hi]
    · have hres : updateIntermediates st stages srcW srcH dstW dstH = (st, false) := by
        simp only [updateIntermediates, hfs]
        rw [if_pos hfspos, if_neg]
        intro hcontra
        exact hc hcontra.2
      push_neg at hc
      refine ⟨?_, ?_, ?_, ?_⟩
      · rw [hres]
        simp [hc.2.2.2.2]
      · rw [hres]
        simp only [Bool.false_eq_true, false_iff]
        push_neg
        exact hc
      · intro _; exact hres
      · intro habs
        rw [hres] at habs
        simp at habs

/-- Witness for C6: a two-stage graph drawn with changed destination
dimensions reallocates one intermediate image. -/
theorem C6_intermediate_images_witness :
    ([defaultStage, defaultStage] ≠ ([] : List Stage)) ∧
    ([defaultStage, defaultStage] : List Stage).length < 2 ^ 64 ∧
    ((([defaultStage, defaultStage] : List Stage).length = 1 →
      updateIntermediates ⟨0, 0, 0, 0, []⟩ [defaultStage, defaultStage] 64 64 128 128 =
        (⟨0, 0, 0, 0, []⟩, false)) ∧
     (2 ≤ ([defaultStage, defaultStage] : List Stage).length →
      ((updateIntermediates ⟨0, 0, 0, 0, []⟩ [defaultStage, defaultStage] 64 64 128 128).1.m_stageOutput.length =
        ([defaultStage, defaultStage] : List Stage).length - 1) ∧
      ((updateIntermediates ⟨0, 0, 0, 0, []⟩ [defaultStage, defaultStage] 64 64 128 128).2 = true ↔
        ((⟨0, 0, 0, 0, []⟩ : BlitCacheState).m_prev_dst_width ≠ 128 ∨
         (⟨0, 0, 0, 0, []⟩ : BlitCacheState).m_prev_dst_height ≠ 128 ∨
         (⟨0, 0, 0, 0, []⟩ : BlitCacheState).m_prev_src_width ≠ 64 ∨
         (⟨0, 0, 0, 0, []⟩ : BlitCacheState).m_prev_src_height ≠ 64 ∨
         (⟨0, 0, 0, 0, []⟩ : BlitCacheState).m_stageOutput.length ≠
           ([defaultStage, defaultStage] : List Stage).length - 1)) ∧
      ((updateIntermediates ⟨0, 0, 0, 0, []⟩ [defaultStage, defaultStage] 64 64 128 128).2 = false →
        updateIntermediates ⟨0, 0, 0, 0, []⟩ [defaultStage, defaultStage] 64 64 128 128 =
          (⟨0, 0, 0, 0, []⟩, false)) ∧
      ((updateIntermediates ⟨0, 0, 0, 0, []⟩ [defaultStage, defaultStage] 64 64 128 128).2 = true →
        ∀ i, i < ([defaultStage, defaultStage] : List Stage).length - 1 →
          (updateIntermediates ⟨0, 0, 0, 0, []⟩ [defaultStage, defaultStage] 64 64 128 128).1.m_stageOutput[i]? =
            some (mkStageImage (([defaultStage, defaultStage] : List Stage).getD i defaultStage)
              64 64 128 128)))) :=
  ⟨by decide, by decide,
   C6_intermediate_images ⟨0, 0, 0, 0, []⟩ [defaultStage, defaultStage] 64 64 128 128
     (by decide) (by decide)⟩

/-- Claim C10: the final-stage index is `stages.size() - 1` on an unsigned
64-bit type, so with a non-empty stage list it is the honest `N - 1`, but
with zero configured stages it underflows to `2^64 - 1`; the guard
`finalstage > 0` then passes and the intermediate-image bookkeeping
resizes the cache to `2^64 - 1` entries — every draw presumes at least one
stage. -/
theorem C10_empty_stage_underflow :
    (∀ n : Nat, 1 ≤ n → n < 2 ^ 64 → sizeTSub1 n = n - 1) ∧
    sizeTSub1 0 = 2 ^ 64 - 1 ∧
    0 < sizeTSub1 0 ∧
    (updateIntermediates ⟨0, 0, 0, 0, []⟩ [] 64 64 128 128).2 = true ∧
    (updateIntermediates ⟨0, 0, 0, 0, []⟩ [] 64 64 128 128).1.m_stageOutput.length =
      2 ^ 64 - 1 := by
  have hz := sizeTSub1_zero
  have hpos : 0 < sizeTSub1 0 := by rw [hz]; omega
  have h := updateIntermediates_realloc ⟨0, 0, 0, 0, []⟩ [] 64 64 128 128
    (by simpa using hpos) (Or.inl (by decide))
  refine ⟨fun n h1 h2 => sizeTSub1_eq n h1 h2, hz, hpos, h.1, ?_⟩
  rw [h.2]
  simpa using hz

/-- Witness for C10 at a three-stage list. -/
theorem C10_empty_stage_underflow_witness :
    (1 ≤ 3) ∧ (3 < 2 ^ 64) ∧ sizeTSub1 3 = 2 :=
  ⟨by decide, by decide, C10_empty_stage_underflow.1 3 (by decide) (by decide)⟩

/-! ## Claim C7: geometry re-upload guard -/

/-- Claim C7: once the wrap-observer flag is clear, the full-screen-quad
geometry is appended on a draw if and only if the normalized UV rectangle
computed from the source rectangle differs from the UV bounds recorded at
the previous upload; and immediately after any draw, a second draw with
the same source rectangle uploads nothing and leaves the cache unchanged
— so repeated draws with an identical source rectangle perform zero
re-uploads after the first. -/
theorem C7_geometry_upload_iff (st : GeometryState) (src : TargetRectangle)
    (srcWidth srcHeight : Int) (u0 u1 v0 v1 : ℚ)
    (_huv : computeBlitUV src srcWidth srcHeight = (u0, u1, v0, v1)) :
    (st.m_vertex_buffer_observer = false →
      ((updateGeometry st u0 u1 v0 v1).2 = true ↔
        ¬(st.pu0 = u0 ∧ st.pu1 = u1 ∧ st.pv0 = v0 ∧ st.pv1 = v1))) ∧
    (updateGeometry (updateGeometry st u0 u1 v0 v1).1 u0 u1 v0 v1 =
      ((updateGeometry st u0 u1 v0 v1).1, false)) := by
  constructor
  · intro hobs
    simp only [updateGeometry, hobs]
    by_cases h : st.pu0 = u0 ∧ st.pu1 = u1 ∧ st.pv0 = v0 ∧ st.pv1 = v1
    · rw [if_neg]
      · simp [h]
      · simp [h.1, h.2.1, h.2.2.1, h.2.2.2]
    · rw [if_pos]
      · simp [h]
      · push_neg at h
        by_cases h1 : st.pu0 = u0
        · by_cases h2 : st.pu1 = u1
          · by_cases h3 : st.pv0 = v0
            · exact Or.inr (Or.inr (Or.inr (Or.inr (h h1 h2 h3))))
            · exact Or.inr (Or.inr (Or.inr (Or.inl h3)))
          · exact Or.inr (Or.inr (Or.inl h2))
        · exact Or.inr (Or.inl h1)
  · by_cases hcond : st.m_vertex_buffer_observer = true ∨ st.pu0 ≠ u0 ∨ st.pu1 ≠ u1 ∨
        st.pv0 ≠ v0 ∨ st.pv1 ≠ v1
    · have hstep : updateGeometry st u0 u1 v0 v1 =
          ({ m_vertex_buffer_observer := false, pu0 := u0, pu1 := u1, pv0 := v0, pv1 := v1 },
           true) := by
        simp only [updateGeometry]
        rw [if_pos]
        simpa using hcond
      rw [hstep]
      simp [updateGeometry]
    · have hstep : updateGeometry st u0 u1 v0 v1 = (st, false) := by
        simp only [updateGeometry]
        rw [if_neg]
        simpa using hcond
      rw [hstep]
      exact hstep

/-- Witness for C7: a quiescent cache holding the UV bounds of a 64-pixel
source rectangle draws the same rectangle again without re-uploading. -/
theorem C7_geometry_upload_iff_witness :
    computeBlitUV ⟨0, 0, 64, 64⟩ 64 64 = ((0 : ℚ), (1 : ℚ), (0 : ℚ), (1 : ℚ)) ∧
    ((c7state.m_vertex_buffer_observer = false →
      ((updateGeometry c7state 0 1 0 1).2 = true ↔
        ¬(c7state.pu0 = 0 ∧ c7state.pu1 = 1 ∧ c7state.pv0 = 0 ∧ c7state.pv1 = 1))) ∧
     (updateGeometry (updateGeometry c7state 0 1 0 1).1 0 1 0 1 =
       ((updateGeometry c7state 0 1 0 1).1, false))) :=
  ⟨by norm_num [computeBlitUV, Prod.ext_iff],
   C7_geometry_upload_iff c7state ⟨0, 0, 64, 64⟩ 64 64 0 1 0 1
     (by norm_num [computeBlitUV, Prod.ext_iff])⟩

/-! ## Claim C8: per-frame parameter block -/

/-- Claim C8: the per-frame parameter block computed on every draw has
`native_gamma = 1/gamma` and
`resolution = (src_width, src_height, 1/src_width, 1/src_height)`; in
particular, for source rectangle (0,0,64,64) and gamma 2.2 the uploaded
parameters have `native_gamma = 5/11 ≈ 0.4545` and
`resolution = (64, 64, 1/64, 1/64)`. -/
theorem C8_frame_params (src : TargetRectangle) (srcWidth srcHeight : Int)
    (layer : Int) (gamma : ℚ) (time : Nat) (_hg : gamma ≠ 0) :
    ((computeParams src srcWidth srcHeight layer gamma time).native_gamma = 1 / gamma ∧
     (computeParams src srcWidth srcHeight layer gamma time).resolution =
       ((srcWidth : ℚ), (srcHeight : ℚ), 1 / (srcWidth : ℚ), 1 / (srcHeight : ℚ))) ∧
    ((computeParams ⟨0, 0, 64, 64⟩ 64 64 0 (11 / 5) 0).native_gamma = 5 / 11 ∧
     |(computeParams ⟨0, 0, 64, 64⟩ 64 64 0 (11 / 5) 0).native_gamma -
        (4545 / 10000 : ℚ)| < 1 / 1000 ∧
     (computeParams ⟨0, 0, 64, 64⟩ 64 64 0 (11 / 5) 0).resolution =
       ((64 : ℚ), (64 : ℚ), (1 / 64 : ℚ), (1 / 64 : ℚ))) := by
  refine ⟨⟨rfl, rfl⟩, ?_, ?_, ?_⟩
  · show (1 : ℚ) / (11 / 5) = 5 / 11
    norm_num
  · show |(1 : ℚ) / (11 / 5) - 4545 / 10000| < 1 / 1000
    rw [show (1 : ℚ) / (11 / 5) - 4545 / 10000 = 1 / 22000 by norm_num]
    rw [abs_of_nonneg (by norm_num)]
    norm_num
  · show (((64 : Int) : ℚ), ((64 : Int) : ℚ), 1 / ((64 : Int) : ℚ), 1 / ((64 : Int) : ℚ)) =
      ((64 : ℚ), (64 : ℚ), (1 / 64 : ℚ), (1 / 64 : ℚ))
    norm_num

/-- Witness for C8 at the spec's end-to-end example inputs. -/
theorem C8_frame_params_witness :
    ((11 / 5 : ℚ) ≠ 0) ∧
    (((computeParams ⟨0, 0, 64, 64⟩ 64 64 0 (11 / 5) 0).native_gamma = 1 / (11 / 5) ∧
      (computeParams ⟨0, 0, 64, 64⟩ 64 64 0 (11 / 5) 0).resolution =
        ((64 : ℚ), (64 : ℚ), 1 / (64 : ℚ), 1 / (64 : ℚ))) ∧
     ((computeParams ⟨0, 0, 64, 64⟩ 64 64 0 (11 / 5) 0).native_gamma = 5 / 11 ∧
      |(computeParams ⟨0, 0, 64, 64⟩ 64 64 0 (11 / 5) 0).native_gamma -
         (4545 / 10000 : ℚ)| < 1 / 1000 ∧
      (computeParams ⟨0, 0, 64, 64⟩ 64 64 0 (11 / 5) 0).resolution =
        ((64 : ℚ), (64 : ℚ), (1 / 64 : ℚ), (1 / 64 : ℚ)))) :=
  ⟨by norm_num, C8_frame_params ⟨0, 0, 64, 64⟩ 64 64 0 (11 / 5) 0 (by norm_num)⟩

/-! ## Claim C9: the MSAA header substitution -/

set_option maxRecDepth 40000 in
/-- Claim C9 describes the intended behaviour; the code deviates: the MSAA
header format string contains two `%d` conversions (the
`Texture2DMSArray` declaration and the per-sample `const int samples`
constant), but `LoadShaderOptions` calls `StringFromFormat` with a single
argument, so only the first placeholder receives the configured sample
count while the second reads an indeterminate variadic value (modelled by
`junk`): with sample count 4 and junk value 9, the emitted header contains
`const int samples = 9;` and no `const int samples = 4;`. -/
theorem C9_msaa_header_second_placeholder_bug :
    countOcc "%d" s_hlsl_header_MSAA = 2 ∧
    countOcc "Texture2DMSArray<float4, 4>"
      (StringFromFormatD s_hlsl_header_MSAA [Int.ofNat 4] 9) = 1 ∧
    countOcc "const int samples = 4;"
      (StringFromFormatD s_hlsl_header_MSAA [Int.ofNat 4] 9) = 0 ∧
    countOcc "const int samples = 9;"
      (StringFromFormatD s_hlsl_header_MSAA [Int.ofNat 4] 9) = 1 ∧
    countOcc "const int samples = 11;"
      (StringFromFormatD s_hlsl_header_MSAA [Int.ofNat 4] 11) = 1 ∧
    LoadShaderOptionsText [] 4 9 "" =
      StringFromFormatD s_hlsl_header_MSAA [Int.ofNat 4] 9 ++ s_hlsl_interface ++ "" ++ "" := by
  refine ⟨?_, ?_, ?_, ?_, ?_, ?_⟩ <;> rfl

/-! ## Claim C3: the compile-failure fallback -/

theorem compileStages_length (c : String → Option String → Bool) (code : String) :
    ∀ l : List Stage, (compileStages c code l).1.length = l.length := by
  intro l
  induction l with
  | nil => rfl
  | cons s rest ih =>
    simp only [compileStages]
    split_ifs with h
    · simp [ih]
    · simp

theorem compileStages_false_iff (c : String → Option String → Bool) (code : String) :
    ∀ l : List Stage, (compileStages c code l).2 = false ↔
      ∃ s ∈ l, c code (some s.m_stage_entry_point) = false := by
  intro l
  induction l with
  | nil => simp [compileStages]
  | cons s rest ih =>
    simp only [compileStages]
    split_ifs with h
    · simp [ih, h]
    · simp [h]

/-- The program list the fallback path builds: `resize(1)` of an all-null
list, re-grown to the stage count by the second `InitStages` call, with the
default-pass program stored at slot 0. -/
theorem fallback_pshader_shape (n : Nat) (hn : 1 ≤ n) (p : Option PProgram) :
    (resizeList (resizeList (List.replicate n none) 1) n).set 0 p =
      p :: List.replicate (n - 1) none := by
  obtain ⟨m, rfl⟩ : ∃ m, n = m + 1 := ⟨n - 1, by omega⟩
  simp [resizeList, List.replicate_succ, List.take_replicate]

/-- Claim C3: whenever a recompile is triggered and some stage fails to
compile (in particular when assembly failed, since then no stage entry
point exists in the assembled text), `ApplyShader` clears the active
preset selection, discards every partially compiled program, compiles the
assembled source once more as a single default pass (stored in slot 0),
and ends initialized with exactly one working program; and `InitStages`
does return empty text whenever a declared stage entry point is absent
from the source it scans. -/
theorem C3_compile_failure_fallback (env : PPEnv) (st : PPState) (junk : Int)
    (hstale : ¬(st.m_initialized = true ∧ env.configShaderName = st.sPostProcessingShader ∧
      st.m_prev_samples = env.aaCount))
    (hfail : ∃ s ∈ env.stages,
      env.compile (assembledCode env junk) (some s.m_stage_entry_point) = false)
    (hfb : env.compile (assembledCode env junk) none = true) :
    (ApplyShader env st junk).sPostProcessingShader = "" ∧
    (ApplyShader env st junk).m_initialized = true ∧
    countSome (ApplyShader env st junk).m_pshader = 1 ∧
    (ApplyShader env st junk).m_pshader.head? = some (some (assembledCode env junk, none)) ∧
    (∀ code s rest, env.stages = s :: rest →
      strFind code ("void " ++ s.m_stage_entry_point) 0 = none →
      InitStagesText env.stages code = "") := by
  have hne : 1 ≤ env.stages.length := by
    obtain ⟨s, hs, _⟩ := hfail
    have := List.length_pos.mpr (List.ne_nil_of_mem hs)
    omega
  have hko : (compileStages env.compile (assembledCode env junk) env.stages).2 = false :=
    (compileStages_false_iff env.compile (assembledCode env junk) env.stages).mpr hfail
  have hshape :
      (resizeList
        (resizeList
          ((compileStages env.compile (assembledCode env junk) env.stages).1.map
            fun _ => (none : Option PProgram)) 1) env.stages.length).set 0
        (some (assembledCode env junk, none)) =
      some (assembledCode env junk, none) :: List.replicate (env.stages.length - 1) none := by
    rw [List.map_const']
    rw [compileStages_length env.compile (assembledCode env junk) env.stages]
    exact fallback_pshader_shape env.stages.length hne _
  have happly : ApplyShader env st junk =
      { m_initialized := true
        m_prev_samples := env.aaCount
        m_pshader := some (assembledCode env junk, none) ::
          List.replicate (env.stages.length - 1) none
        m_stageOutput := []
        sPostProcessingShader := "" } := by
    simp only [ApplyShader, if_neg hstale, hko, Bool.false_eq_true, if_false, hfb, if_true,
      if_pos hfb]
    rw [hshape]
  refine ⟨by rw [happly], by rw [happly], ?_, by rw [happly]; rfl, ?_⟩
  · rw [happly]
    simp only [countSome, List.filter, Option.isSome_some]
    simp [countSome]
  · intro code s rest hstages hfind
    rw [hstages]
    simp only [InitStagesText, InitStagesGo, hfind]

/-- Witness for C3: a one-stage preset whose entry point is missing from
the raw source and whose compiler rejects every named entry point; the
engine falls back to a single default pass and stays initialized. -/
theorem C3_compile_failure_fallback_witness :
    (¬(c3state.m_initialized = true ∧ c3env.configShaderName = c3state.sPostProcessingShader ∧
       c3state.m_prev_samples = c3env.aaCount)) ∧
    (∃ s ∈ c3env.stages,
      c3env.compile (assembledCode c3env 0) (some s.m_stage_entry_point) = false) ∧
    (c3env.compile (assembledCode c3env 0) none = true) ∧
    ((ApplyShader c3env c3state 0).sPostProcessingShader = "" ∧
     (ApplyShader c3env c3state 0).m_initialized = true ∧
     countSome (ApplyShader c3env c3state 0).m_pshader = 1 ∧
     (ApplyShader c3env c3state 0).m_pshader.head? =
       some (some (assembledCode c3env 0, none)) ∧
     (∀ code s rest, c3env.stages = s :: rest →
       strFind code ("void " ++ s.m_stage_entry_point) 0 = none →
       InitStagesText c3env.stages code = "")) :=
  ⟨by simp [c3state], ⟨c3stage, by simp [c3env], rfl⟩, rfl,
   C3_compile_failure_fallback c3env c3state 0 (by simp [c3state])
     ⟨c3stage, by simp [c3env], rfl⟩ rfl⟩
